import Mathlib

/-!
Verification development for the HookWise webhook reliability service.

This file gives a shallow embedding, in Lean, of the parts of the HookWise
code base that the specification talks about:

* the delivery-error classifier (`src/lib/utils/classify-error.ts`),
* the per-endpoint circuit breaker (`src/lib/mitigation/circuit-breaker.ts`),
* the ingestion endpoint (`src/app/api/ingest/[integrationId]/route.ts`),
* the delivery worker's retry fan-out (`src/lib/inngest/functions/deliver-webhook.ts`),
* the reconciliation cycle (`src/lib/reconciliation/reconcile.ts`),
* the ordered replay engine (`src/lib/inngest/functions/replay-engine.ts`).

TypeScript-to-Lean conventions used throughout: nullable values become
`Option`; JS numbers that the code only ever uses as integers become `Int`
(or `Nat` where the code keeps them non-negative); JS floating point
divisions (success rate, average response time) become exact rational
arithmetic over `ℚ`; database tables become lists of row structures;
`new Date()` timestamps become a logical clock (a `Nat`) that is advanced
after every persisted step, reflecting that the wall clock strictly
increases across sequential awaited steps; outbound HTTP calls become an
oracle handed to the function being modelled.
-/

namespace Hookwise

/-! ## Basic enums, mirroring the pgEnum declarations in `src/lib/db/schema.ts` -/

/-- Circuit state enum: `["closed", "half_open", "open"]` (`circuit_state`).
The SQL value `"open"` is rendered `opened` because `open` is a Lean keyword. -/
inductive CircuitState where
  | closed
  | half_open
  | opened
deriving DecidableEq, Repr

/-- Error type enum from the schema (`error_type`). -/
inductive ErrorType where
  | timeout
  | server_error
  | rate_limit
  | ssl
  | connection_refused
  | unknown
deriving DecidableEq, Repr

/-- Delivery status enum (`delivery_status`). -/
inductive DeliveryStatus where
  | pending
  | delivered
  | failed
  | dead_letter
deriving DecidableEq, Repr

/-- Replay queue status enum (`replay_status`). -/
inductive ReplayStatus where
  | pending
  | delivering
  | delivered
  | failed
  | skipped
deriving DecidableEq, Repr

/-- Integration status enum (`integration_status`). -/
inductive IntegrationStatus where
  | active
  | paused
  | error
deriving DecidableEq, Repr

/-- Event source enum (`event_source`). -/
inductive EventSource where
  | webhook
  | reconciliation
deriving DecidableEq, Repr

/-! ## String helpers: JS `String.prototype.includes` and `parseInt(s, 10)` -/

/-- Character-list version of JS `hay.includes(needle)`. -/
def charsContain (needle : List Char) : List Char → Bool
  | [] => needle.isEmpty
  | c :: t => needle.isPrefixOf (c :: t) || charsContain needle t

/-- JS `hay.includes(needle)` on strings. -/
def strIncludes (hay needle : String) : Bool :=
  charsContain needle.toList hay.toList

/-- Accumulate a digit list into a natural number, most significant first. -/
def digitsToNat : List Char → Nat → Nat
  | [], acc => acc
  | c :: t, acc => digitsToNat t (acc * 10 + (c.toNat - 48))

/-- JS `parseInt(s, 10)`: skip leading whitespace, read an optional sign and
then a maximal run of decimal digits; `none` models `NaN` (no digits). -/
def jsParseInt (s : String) : Option Int :=
  let chars := s.toList.dropWhile Char.isWhitespace
  let signAndRest : Int × List Char :=
    match chars with
    | '-' :: t => (-1, t)
    | '+' :: t => (1, t)
    | _ => (1, chars)
  let digits := signAndRest.2.takeWhile Char.isDigit
  if digits.isEmpty then none
  else some (signAndRest.1 * (digitsToNat digits 0 : Int))

/-! ## Error classifier (`classifyDeliveryError` in `src/lib/utils/classify-error.ts`) -/

/-- Return type of the classifier (`ErrorClassification` in the source). -/
structure ErrorClassification where
  errorType : ErrorType
  shouldRetry : Bool
  retryDelayMs : Option Int
  shouldOpenCircuit : Bool
deriving DecidableEq, Repr

/-- The trailing status-code cases of `classifyDeliveryError` (429, 503,
`>= 500`, otherwise), reached when no transport-error message matched. -/
def classifyByStatus (statusCode : Option Int) (retryAfterHeader : Option String) :
    ErrorClassification :=
  if statusCode = some 429 then
    let delay : Int :=
      match retryAfterHeader with
      | some h =>
        match jsParseInt h with
        | some seconds => seconds * 1000
        | none => 60000
      | none => 60000
    ⟨.rate_limit, true, some delay, false⟩
  else if statusCode = some 503 then
    ⟨.server_error, true, some 30000, false⟩
  else
    match statusCode with
    | some n => if n ≥ 500 then ⟨.server_error, true, none, false⟩ else ⟨.unknown, true, none, false⟩
    | none => ⟨.unknown, true, none, false⟩

/-- `classifyDeliveryError(statusCode, error, retryAfterHeader)`: transport
message checks first (timeout, ssl, connection refused, in source order),
then the status-code checks. -/
def classifyDeliveryError (statusCode : Option Int) (error : Option String)
    (retryAfterHeader : Option String) : ErrorClassification :=
  match error with
  | some err =>
    let msg := err.toLower
    if strIncludes msg "abort" || strIncludes msg "timeout" then
      ⟨.timeout, true, none, false⟩
    else if strIncludes msg "ssl" || strIncludes msg "tls" || strIncludes msg "certificate" then
      ⟨.ssl, false, none, true⟩
    else if strIncludes msg "econnrefused" || strIncludes msg "connection refused"
        || strIncludes msg "enotfound" then
      ⟨.connection_refused, false, none, true⟩
    else classifyByStatus statusCode retryAfterHeader
  | none => classifyByStatus statusCode retryAfterHeader

/-- A transport-error message matches a table row when it contains one of the
row's needles (spec §4.E; the match is case-insensitive on the message). -/
def specMsgMatches (error : Option String) (needles : List String) : Bool :=
  match error with
  | none => false
  | some e => needles.any (fun n => strIncludes e.toLower n)

/-- The §4.E classification table transcribed from the specification's own
wording, row by row, first match wins.  This definition follows the SPEC;
`classifyDeliveryError` above follows the source. -/
def classifySpecTable (statusCode : Option Int) (error : Option String)
    (retryAfterHeader : Option String) : ErrorClassification :=
  if specMsgMatches error ["abort", "timeout"] then
    ⟨.timeout, true, none, false⟩
  else if specMsgMatches error ["ssl", "tls", "certificate"] then
    ⟨.ssl, false, none, true⟩
  else if specMsgMatches error ["econnrefused", "enotfound", "connection refused"] then
    ⟨.connection_refused, false, none, true⟩
  else if statusCode = some 429 then
    let delay : Int :=
      match retryAfterHeader.bind jsParseInt with
      | some seconds => seconds * 1000
      | none => 60000
    ⟨.rate_limit, true, some delay, false⟩
  else if statusCode = some 503 then
    ⟨.server_error, true, some 30000, false⟩
  else
    match statusCode with
    | some n => if n ≥ 500 then ⟨.server_error, true, none, false⟩ else ⟨.unknown, true, none, false⟩
    | none => ⟨.unknown, true, none, false⟩

/-! ## Circuit breaker (`src/lib/mitigation/circuit-breaker.ts`) -/

/-- `SLIDING_WINDOW_SIZE` in the source. -/
def SLIDING_WINDOW_SIZE : Nat := 20

/-- `CONSECUTIVE_FAILURES_THRESHOLD` in the source. -/
def CONSECUTIVE_FAILURES_THRESHOLD : Nat := 5

/-- `SUCCESS_RATE_OPEN_THRESHOLD` in the source (per cent). -/
def SUCCESS_RATE_OPEN_THRESHOLD : Nat := 50

/-- `HEALTH_CHECKS_FOR_HALF_OPEN` in the source. -/
def HEALTH_CHECKS_FOR_HALF_OPEN : Nat := 3

/-- `SUCCESSES_FOR_CLOSED` in the source. -/
def SUCCESSES_FOR_CLOSED : Nat := 10

/-- `HALF_OPEN_FAILURE_THRESHOLD` in the source. -/
def HALF_OPEN_FAILURE_THRESHOLD : Nat := 2

/-- An `endpoints` row (`src/lib/db/schema.ts`), restricted to the columns the
circuit breaker reads or writes.  Timestamps are logical clock values. -/
structure Endpoint where
  id : Nat
  url : String
  circuitState : CircuitState
  successRate : ℚ
  avgResponseMs : ℚ
  consecutiveFailures : Nat
  consecutiveHealthChecks : Nat
  consecutiveSuccesses : Nat
  lastHealthCheck : Option Nat
  stateChangedAt : Nat
deriving DecidableEq, Repr

/-- A `deliveries` row, restricted to the columns used here. -/
structure DeliveryRow where
  eventId : Nat
  endpointId : Option Nat
  status : DeliveryStatus
  statusCode : Option Int
  responseTimeMs : Option Int
  errorType : Option ErrorType
  attemptNumber : Nat
  attemptedAt : Nat
deriving DecidableEq, Repr

/-- The `(previousState, newState)` pair returned by the breaker operations. -/
structure TransitionResult where
  previousState : CircuitState
  newState : CircuitState
deriving DecidableEq, Repr

/-- The query inside `recordDeliveryResult`: deliveries of the endpoint,
`ORDER BY attempted_at DESC`, `LIMIT SLIDING_WINDOW_SIZE`. -/
def recentDeliveriesQuery (deliveriesTbl : List DeliveryRow) (endpointId : Nat) :
    List DeliveryRow :=
  (((deliveriesTbl.filter (fun d => d.endpointId = some endpointId)).insertionSort
    (fun a b => b.attemptedAt ≤ a.attemptedAt)).take SLIDING_WINDOW_SIZE)

/-- `totalInWindow = recentDeliveries.length + 1` (include current). -/
def windowTotal (recentDeliveries : List DeliveryRow) : Nat :=
  recentDeliveries.length + 1

/-- `currentSuccesses`: successes among the window deliveries plus the
incoming delivery when it succeeded. -/
def windowSuccesses (recentDeliveries : List DeliveryRow) (success : Bool) : Nat :=
  (recentDeliveries.filter (fun d => d.status = DeliveryStatus.delivered)).length
    + (if success then 1 else 0)

/-- `successRate = (currentSuccesses / totalInWindow) * 100` (the `else 100`
branch of the source is kept although `totalInWindow` is never zero). -/
def windowSuccessRate (recentDeliveries : List DeliveryRow) (success : Bool) : ℚ :=
  if windowTotal recentDeliveries > 0 then
    ((windowSuccesses recentDeliveries success : ℚ) / (windowTotal recentDeliveries : ℚ)) * 100
  else 100

/-- `newConsecutiveFailures = success ? 0 : endpoint.consecutiveFailures + 1`. -/
def newConsecutiveFailures (endpoint : Endpoint) (success : Bool) : Nat :=
  if success then 0 else endpoint.consecutiveFailures + 1

/-- `newConsecutiveSuccesses = success ? endpoint.consecutiveSuccesses + 1 : 0`. -/
def newConsecutiveSuccesses (endpoint : Endpoint) (success : Bool) : Nat :=
  if success then endpoint.consecutiveSuccesses + 1 else 0

/-- The comparison `successRate < SUCCESS_RATE_OPEN_THRESHOLD` in exact
integer form: `(successes / total) * 100 < 50` multiplied through by the
positive `total`.  For windows of at most 21 deliveries the float64
computation of the source cannot land between the two sides, so the
integer test is exact; `windowRate_lt_iff` below proves it equal to the
rational expression. -/
def successRateBelow (successesInWindow totalInWindow : Nat) : Prop :=
  100 * successesInWindow < SUCCESS_RATE_OPEN_THRESHOLD * totalInWindow

instance (s t : Nat) : Decidable (successRateBelow s t) :=
  inferInstanceAs (Decidable (_ < _))

/-- The state-transition block of `recordDeliveryResult` (the `if` chain on
`previousState`; while OPEN no state change happens). -/
def nextCircuitState (previousState : CircuitState) (newCF newCS : Nat)
    (totalInWindow successesInWindow : Nat) : CircuitState :=
  if previousState = CircuitState.closed then
    if newCF ≥ CONSECUTIVE_FAILURES_THRESHOLD
        ∨ (totalInWindow ≥ 5 ∧ successRateBelow successesInWindow totalInWindow) then
      CircuitState.opened
    else previousState
  else if previousState = CircuitState.half_open then
    if newCS ≥ SUCCESSES_FOR_CLOSED then CircuitState.closed
    else if newCF ≥ HALF_OPEN_FAILURE_THRESHOLD then CircuitState.opened
    else previousState
  else previousState

/-- `avgResponseMs`: mean of the non-null window response times with the
incoming one pushed at the end. -/
def windowAvgResponseMs (recentDeliveries : List DeliveryRow) (responseTimeMs : Int) : ℚ :=
  let responseTimes := (recentDeliveries.filterMap (fun d => d.responseTimeMs)) ++ [responseTimeMs]
  if responseTimes.length > 0 then
    ((responseTimes.foldl (fun a b => a + b) 0 : Int) : ℚ) / (responseTimes.length : ℚ)
  else 0

/-- `recordDeliveryResult(endpointId, success, responseTimeMs)`, acting on the
locked endpoint row and the window returned by `recentDeliveriesQuery`.
Returns the updated row together with `{ previousState, newState }`;
`now` is the logical timestamp taken for `stateChangedAt`. -/
def recordDeliveryResult (endpoint : Endpoint) (recentDeliveries : List DeliveryRow)
    (success : Bool) (responseTimeMs : Int) (now : Nat) : Endpoint × TransitionResult :=
  let previousState := endpoint.circuitState
  let totalInWindow := windowTotal recentDeliveries
  let successRate := windowSuccessRate recentDeliveries success
  let avgResponseMs := windowAvgResponseMs recentDeliveries responseTimeMs
  let newCF := newConsecutiveFailures endpoint success
  let newCS := newConsecutiveSuccesses endpoint success
  let newState := nextCircuitState previousState newCF newCS totalInWindow
    (windowSuccesses recentDeliveries success)
  let stateChanged := newState ≠ previousState
  let endpoint' : Endpoint :=
    { endpoint with
      successRate := successRate
      avgResponseMs := avgResponseMs
      consecutiveFailures := newCF
      consecutiveSuccesses := newCS
      consecutiveHealthChecks := if stateChanged then 0 else endpoint.consecutiveHealthChecks
      circuitState := newState
      stateChangedAt := if stateChanged then now else endpoint.stateChangedAt }
  (endpoint', ⟨previousState, newState⟩)

/-- `recordHealthCheckResult(endpointId, success)`: health checks only matter
when the breaker is OPEN; on reaching `HEALTH_CHECKS_FOR_HALF_OPEN`
successes the state moves to HALF_OPEN and the failure/success counters
reset. -/
def recordHealthCheckResult (endpoint : Endpoint) (success : Bool) (now : Nat) :
    Endpoint × TransitionResult :=
  let previousState := endpoint.circuitState
  if previousState ≠ CircuitState.opened then
    (endpoint, ⟨previousState, previousState⟩)
  else
    let newConsecutiveHealthChecks :=
      if success then endpoint.consecutiveHealthChecks + 1 else 0
    let newState :=
      if newConsecutiveHealthChecks ≥ HEALTH_CHECKS_FOR_HALF_OPEN then CircuitState.half_open
      else previousState
    let stateChanged := newState ≠ previousState
    let endpoint' : Endpoint :=
      { endpoint with
        consecutiveHealthChecks := newConsecutiveHealthChecks
        lastHealthCheck := some now
        circuitState := newState
        stateChangedAt := if stateChanged then now else endpoint.stateChangedAt
        consecutiveFailures := if stateChanged then 0 else endpoint.consecutiveFailures
        consecutiveSuccesses := if stateChanged then 0 else endpoint.consecutiveSuccesses }
    (endpoint', ⟨previousState, newState⟩)

/-! ## Delivery transport (`deliverPayload` in `src/lib/utils/deliver.ts`) -/

/-- The `DeliveryResult` produced by `deliverPayload`.  The HTTP exchange
itself is not embedded; functions that call `deliverPayload` receive their
results from an oracle `Nat → DeliveryResult` indexed by call order. -/
structure DeliveryResult where
  statusCode : Option Int
  responseBody : Option String
  responseTimeMs : Int
  success : Bool
  error : Option String
  retryAfterHeader : Option String
deriving DecidableEq, Repr

/-! ## Delivery worker retry fan-out (`deliverWebhook`, `src/lib/inngest/functions/deliver-webhook.ts`, step 7 of §4.G) -/

/-- `BASE_TIMEOUT_MS` in the source. -/
def BASE_TIMEOUT_MS : Int := 5000

/-- What the tail of `deliverWebhook` does after recording a delivery:
either it terminates with no `webhook/retry` emission, or it emits
`webhook/retry` with the given attempt number and timeout, optionally
after a sleep of the given number of seconds. -/
inductive RetryPlan where
  | terminateNoRetry (reason : ErrorType)
  | sleepThenRetry (sleepSeconds : Int) (attemptNumber : Nat) (timeoutMs : Int)
  | retryNow (attemptNumber : Nat) (timeoutMs : Int)
  | fallThroughNoRetry
deriving DecidableEq, Repr

/-- JS truthiness of a nullable number: `null` and `0` are falsy.  The guard
`classification.retryDelayMs` in the 429 branch of `deliverWebhook` uses
exactly this test. -/
def jsTruthyInt (n : Option Int) : Bool :=
  match n with
  | none => false
  | some v => v ≠ 0

/-- Integer ceiling division (`Math.ceil(a / b)` for integer a and positive b). -/
def ceilDivInt (a b : Int) : Int := -(Int.fdiv (-a) b)

/-- The retry fan-out at the end of `deliverWebhook` (source lines after
`update-circuit-breaker`), as a function of the first attempt's
`DeliveryResult`.  Branches in source order: ssl, connection_refused,
server_error with status ≠ 503, status 503 with shouldRetry, rate_limit
with truthy retryDelayMs, timeout; anything else falls through and emits
nothing. -/
def retryFanOut (result : DeliveryResult) : RetryPlan :=
  if result.success then RetryPlan.fallThroughNoRetry
  else
    let classification :=
      classifyDeliveryError result.statusCode result.error result.retryAfterHeader
    if classification.errorType = ErrorType.ssl then
      RetryPlan.terminateNoRetry ErrorType.ssl
    else if classification.errorType = ErrorType.connection_refused then
      RetryPlan.terminateNoRetry ErrorType.connection_refused
    else if classification.errorType = ErrorType.server_error ∧ result.statusCode ≠ some 503 then
      RetryPlan.retryNow 2 BASE_TIMEOUT_MS
    else if result.statusCode = some 503 ∧ classification.shouldRetry = true then
      RetryPlan.sleepThenRetry 30 2 BASE_TIMEOUT_MS
    else if classification.errorType = ErrorType.rate_limit
        ∧ jsTruthyInt classification.retryDelayMs = true then
      RetryPlan.sleepThenRetry (ceilDivInt (classification.retryDelayMs.getD 0) 1000) 2
        BASE_TIMEOUT_MS
    else if classification.errorType = ErrorType.timeout then
      RetryPlan.retryNow 2 (BASE_TIMEOUT_MS * 2)
    else RetryPlan.fallThroughNoRetry

/-! ## Ingestion endpoint (`POST` in `src/app/api/ingest/[integrationId]/route.ts`) -/

/-- An `integrations` row, restricted to the columns used here. -/
structure Integration where
  id : String
  provider : String
  signingSecret : String
  destinationUrl : String
  status : IntegrationStatus
  apiKeyEncrypted : Option String
deriving DecidableEq, Repr

/-- The stored `payload` jsonb column: either the parsed request body, the
`{raw: <string>}` wrapper used when JSON parsing fails, or the object a
reconciliation gap builds from provider data. -/
inductive Payload where
  | parsed (body : String)
  | rawWrapped (body : String)
  | providerData (providerEventId : String) (eventType : String)
deriving DecidableEq, Repr

/-- An `events` row. -/
structure EventRow where
  id : Nat
  integrationId : String
  eventType : String
  payload : Payload
  headers : List (String × String)
  receivedAt : Nat
  signatureValid : Bool
  providerEventId : Option String
  source : EventSource
deriving DecidableEq, Repr

/-- Result triple of the route's `verifySignature` helper. -/
structure VerifyOutcome where
  valid : Bool
  eventType : String
  providerEventId : Option String
deriving DecidableEq, Repr

/-- The per-provider verification and extraction functions from
`src/lib/providers/{stripe,shopify,github}.ts`.  They compute HMACs and
parse JSON, so they enter the model as abstract functions; every theorem
about the route holds for all of them. -/
structure ProviderVerifiers where
  verifyStripeSignature : String → String → String → Bool
  extractStripeEventType : String → String
  extractStripeEventId : String → Option String
  verifyShopifySignature : String → String → String → Bool
  extractShopifyEventType : List (String × String) → String
  extractShopifyEventId : List (String × String) → Option String
  verifyGitHubSignature : String → String → String → Bool
  extractGitHubEventType : List (String × String) → String
  extractGitHubEventId : List (String × String) → Option String

/-- `headersToRecord`: keys lower-cased. -/
def headersToRecord (headers : List (String × String)) : List (String × String) :=
  headers.map (fun kv => (kv.1.toLower, kv.2))

/-- Access `record[key]` on the built header record; for duplicate keys the
later `forEach` write wins. -/
def recordGet (record : List (String × String)) (key : String) : Option String :=
  (record.reverse.find? (fun kv => kv.1 = key)).map (fun kv => kv.2)

/-- The route's `verifySignature(provider, payload, headers, secret)` switch;
an unknown provider yields `valid: false`. -/
def verifySignature (pv : ProviderVerifiers) (provider : String) (payload : String)
    (headers : List (String × String)) (secret : String) : VerifyOutcome :=
  if provider = "stripe" then
    let header := (recordGet headers "stripe-signature").getD ""
    ⟨pv.verifyStripeSignature payload header secret,
      pv.extractStripeEventType payload, pv.extractStripeEventId payload⟩
  else if provider = "shopify" then
    let header := (recordGet headers "x-shopify-hmac-sha256").getD ""
    ⟨pv.verifyShopifySignature payload header secret,
      pv.extractShopifyEventType headers, pv.extractShopifyEventId headers⟩
  else if provider = "github" then
    let header := (recordGet headers "x-hub-signature-256").getD ""
    ⟨pv.verifyGitHubSignature payload header secret,
      pv.extractGitHubEventType headers, pv.extractGitHubEventId headers⟩
  else ⟨false, "unknown", none⟩

/-- The tables the ingestion route touches; `nextEventId` models the
database-assigned primary key of the next inserted event. -/
structure IngestDB where
  integrations : List Integration
  events : List EventRow
  nextEventId : Nat
deriving DecidableEq, Repr

/-- Response body of the route: `{"error": ...}` on 404/409, else
`{"received": true}`. -/
inductive IngestBody where
  | errorNotFound
  | errorNotActive
  | received
deriving DecidableEq, Repr

/-- An HTTP response of the route. -/
structure IngestResponse where
  status : Nat
  body : IngestBody
deriving DecidableEq, Repr

/-- A task-queue send (`inngest.send` with name `webhook/received`). -/
structure InngestSend where
  name : String
  eventId : Nat
  integrationId : String
  destinationUrl : String
deriving DecidableEq, Repr

/-- The `POST /ingest/{integrationId}` handler.  `jsonParses` abstracts
whether `JSON.parse` succeeds on the raw body; `now` is the logical
`received_at` timestamp.  Returns the response, the updated database and
the (best-effort, non-awaited) task sends. -/
def ingestPOST (pv : ProviderVerifiers) (jsonParses : String → Bool) (dbSt : IngestDB)
    (integrationId : String) (body : String) (requestHeaders : List (String × String))
    (now : Nat) : IngestResponse × IngestDB × List InngestSend :=
  match (dbSt.integrations.filter (fun i => i.id = integrationId)).head? with
  | none => (⟨404, IngestBody.errorNotFound⟩, dbSt, [])
  | some integration =>
    if integration.status ≠ IntegrationStatus.active then
      (⟨409, IngestBody.errorNotActive⟩, dbSt, [])
    else
      let headerRecord := headersToRecord requestHeaders
      let vo := verifySignature pv integration.provider body headerRecord
        integration.signingSecret
      let parsedPayload :=
        if jsonParses body then Payload.parsed body else Payload.rawWrapped body
      let newEvent : EventRow :=
        { id := dbSt.nextEventId
          integrationId := integrationId
          eventType := vo.eventType
          payload := parsedPayload
          headers := headerRecord
          receivedAt := now
          signatureValid := vo.valid
          providerEventId := vo.providerEventId
          source := EventSource.webhook }
      let dbSt' : IngestDB :=
        { dbSt with
          events := dbSt.events ++ [newEvent]
          nextEventId := dbSt.nextEventId + 1 }
      (⟨200, IngestBody.received⟩, dbSt',
        [⟨"webhook/received", newEvent.id, integrationId, integration.destinationUrl⟩])

/-! ## Reconciliation (`reconcileIntegration` in `src/lib/reconciliation/reconcile.ts`) -/

/-- A `reconciliation_runs` row. -/
structure ReconciliationRunRow where
  integrationId : String
  providerEventsFound : Nat
  hookwiseEventsFound : Nat
  gapsDetected : Nat
  gapsResolved : Nat
  ranAt : Nat
deriving DecidableEq, Repr

/-- The `ReconciliationResult` interface of the source. -/
structure ReconciliationResult where
  providerEventsFound : Nat
  hookwiseEventsFound : Nat
  gapsDetected : Nat
  gapsResolved : Nat
deriving DecidableEq, Repr

/-- One entry of the map returned by `fetchProviderEvents` (keyed by provider
event id). -/
structure ProviderEvent where
  id : String
  type : String
deriving DecidableEq, Repr

/-- The tables `reconcileIntegration` touches. -/
structure ReconDB where
  integrations : List Integration
  events : List EventRow
  reconciliationRuns : List ReconciliationRunRow
  nextEventId : Nat
deriving DecidableEq, Repr

/-- The event row inserted for a reconciliation gap: source `reconciliation`,
`signature_valid = true`, empty headers. -/
def gapEventRow (integrationId : String) (gap : ProviderEvent) (eventId : Nat)
    (now : Nat) : EventRow :=
  { id := eventId
    integrationId := integrationId
    eventType := gap.type
    payload := Payload.providerData gap.id gap.type
    headers := []
    receivedAt := now
    signatureValid := true
    providerEventId := some gap.id
    source := EventSource.reconciliation }

/-- The insert-and-trigger loop over the detected gaps (`for (const gap of
gaps)`), threading the database, the emitted sends and `gapsResolved`. -/
def insertGaps (integrationId : String) (destinationUrl : String) (now : Nat) :
    List ProviderEvent → ReconDB → List InngestSend → Nat →
      ReconDB × List InngestSend × Nat
  | [], dbSt, sends, resolved => (dbSt, sends, resolved)
  | gap :: rest, dbSt, sends, resolved =>
    let newEvent := gapEventRow integrationId gap dbSt.nextEventId now
    let dbSt' : ReconDB :=
      { dbSt with
        events := dbSt.events ++ [newEvent]
        nextEventId := dbSt.nextEventId + 1 }
    let send : InngestSend := ⟨"webhook/received", newEvent.id, integrationId, destinationUrl⟩
    insertGaps integrationId destinationUrl now rest dbSt' (sends ++ [send]) (resolved + 1)

/-- The part of `reconcileIntegration` past the integration/credential guard:
fetch outcome dispatch, gap detection, the insert loop and the
ReconciliationRun insert. -/
def reconcileFetched (dbSt : ReconDB) (integrationId : String)
    (integration : Integration) (fetchOutcome : Except Unit (List ProviderEvent))
    (since : Nat) (now : Nat) : ReconciliationResult × ReconDB × List InngestSend :=
  match fetchOutcome with
  | Except.error _ => (⟨0, 0, 0, 0⟩, dbSt, [])
  | Except.ok providerEvents =>
    let hookwiseEvents := dbSt.events.filter
      (fun e => e.integrationId = integrationId ∧ e.receivedAt ≥ since)
    let hookwiseIds := hookwiseEvents.filterMap (fun e => e.providerEventId)
    let gaps := providerEvents.filter (fun pe => ¬ hookwiseIds.contains pe.id)
    let loopOut := insertGaps integrationId integration.destinationUrl now gaps dbSt [] 0
    let result : ReconciliationResult :=
      ⟨providerEvents.length, hookwiseEvents.length, gaps.length, loopOut.2.2⟩
    let runRow : ReconciliationRunRow :=
      ⟨integrationId, result.providerEventsFound, result.hookwiseEventsFound,
        result.gapsDetected, result.gapsResolved, now⟩
    (result,
      { loopOut.1 with
        reconciliationRuns := loopOut.1.reconciliationRuns ++ [runRow] },
      loopOut.2.1)

/-- `reconcileIntegration(integrationId)`.  The provider API call
(`fetchProviderEvents`) is a network fetch: it enters the model as
`fetchOutcome`, an `Except` that is `error` when the fetch threw.  `since`
is the window lower bound (`now − 10 min` in the source).  JS truthiness:
the guard `!integration.apiKeyEncrypted` also fails on an empty string. -/
def reconcileIntegration (dbSt : ReconDB) (integrationId : String)
    (fetchOutcome : Except Unit (List ProviderEvent)) (since : Nat) (now : Nat) :
    ReconciliationResult × ReconDB × List InngestSend :=
  match (dbSt.integrations.filter (fun i => i.id = integrationId)).head? with
  | none => (⟨0, 0, 0, 0⟩, dbSt, [])
  | some integration =>
    if (match integration.apiKeyEncrypted with
        | none => true
        | some k => k.isEmpty) then
      (⟨0, 0, 0, 0⟩, dbSt, [])
    else
      reconcileFetched dbSt integrationId integration fetchOutcome since now

/-! ## Ordered replay engine (`replayEngine` in `src/lib/inngest/functions/replay-engine.ts`)

The handler drains one endpoint's replay queue; the outer `while (hasMore)`
loop becomes fuel-indexed recursion (each pass either stops or consumes
pending work, so sufficient fuel reproduces any terminating run), and each
`step.run` that takes a `new Date()` advances the logical clock by one,
reflecting that wall time strictly increases across sequential awaited
steps.  Outbound sends come from an oracle indexed by send order.  The
HTTP headers built for each send carry no information the model needs, so
they are omitted. -/

/-- `BATCH_SIZE` in the source. -/
def BATCH_SIZE : Nat := 10

/-- `MAX_SKIP_ATTEMPTS` in the source. -/
def MAX_SKIP_ATTEMPTS : Nat := 3

/-- `RATE_TIERS` in the source (events per second). -/
def RATE_TIERS : List Nat := [1, 2, 5, 10]

/-- `SUCCESSES_PER_TIER` in the source. -/
def SUCCESSES_PER_TIER : Nat := 5

/-- A `replay_queue` row. -/
structure RQItem where
  id : Nat
  endpointId : Nat
  eventId : Nat
  position : Nat
  correlationKey : Option String
  status : ReplayStatus
  attempts : Nat
  createdAt : Nat
  deliveredAt : Option Nat
deriving DecidableEq, Repr

/-- The tables the replay engine touches, plus the logical clock and the
log of the rate-limit sleeps it performed (in ms). -/
structure EngineState where
  replayQueue : List RQItem
  events : List EventRow
  deliveries : List DeliveryRow
  endpoints : List Endpoint
  clock : Nat
  sleepsMs : List Nat
deriving DecidableEq, Repr

/-- Advance the logical clock past a persisted step. -/
def EngineState.tick (st : EngineState) : EngineState :=
  { st with clock := st.clock + 1 }

/-- `getEndpointState(endpointId)` from the circuit-breaker module:
`SELECT ... WHERE id = endpointId LIMIT 1`. -/
def getEndpointState (st : EngineState) (endpointId : Nat) : Option Endpoint :=
  (st.endpoints.filter (fun e => e.id = endpointId)).head?

/-- Look an event up by primary key (`SELECT ... WHERE id = ... LIMIT 1`). -/
def findEvent (st : EngineState) (eventId : Nat) : Option EventRow :=
  (st.events.filter (fun e => e.id = eventId)).head?

/-- Update the single replay-queue row with the given primary key. -/
def updItem (st : EngineState) (itemId : Nat) (f : RQItem → RQItem) : EngineState :=
  { st with replayQueue := st.replayQueue.map (fun j => if j.id = itemId then f j else j) }

/-- The `dedup-check` step: the item's event must have a truthy
`provider_event_id`, and some delivery row with `status = delivered`
joined to an event with the same `provider_event_id` must exist; the
query is not filtered by endpoint or integration. -/
def dedupAlreadyDelivered (st : EngineState) (item : RQItem) : Bool :=
  match (findEvent st item.eventId).bind (fun e : EventRow => e.providerEventId) with
  | none => false
  | some pid =>
    st.deliveries.any (fun d =>
      d.status = DeliveryStatus.delivered ∧
        (findEvent st d.eventId).bind (fun e : EventRow => e.providerEventId) = some pid)

/-- `RATE_TIERS[currentTierIndex] ?? RATE_TIERS[RATE_TIERS.length - 1]`. -/
def currentRateFor (currentTierIndex : Nat) : Nat :=
  (RATE_TIERS.get? currentTierIndex).getD (RATE_TIERS.getD (RATE_TIERS.length - 1) 0)

/-- `Math.ceil(1000 / currentRate)` as natural ceiling division. -/
def delayMsFor (currentTierIndex : Nat) : Nat :=
  (1000 + currentRateFor currentTierIndex - 1) / currentRateFor currentTierIndex

/-- The guard of the `rate-limit-...` sleep step: `delayMs > 100`. -/
def sleepPerformed (delayMs : Nat) : Bool := delayMs > 100

/-- The adaptive-rate bookkeeping of the success path: increment the
consecutive-success counter and advance one tier (resetting the counter)
once it reaches `SUCCESSES_PER_TIER`, unless already at the top tier.
Returns `(currentTierIndex, consecutiveSuccesses)`. -/
def tierAfterSuccess (currentTierIndex consecutiveSuccesses : Nat) : Nat × Nat :=
  let consec := consecutiveSuccesses + 1
  if consec ≥ SUCCESSES_PER_TIER ∧ currentTierIndex < RATE_TIERS.length - 1 then
    (currentTierIndex + 1, 0)
  else (currentTierIndex, consec)

/-- The local counters of the handler. -/
structure LoopCtr where
  totalDelivered : Nat
  totalSkipped : Nat
  totalFailed : Nat
  consecutiveSuccesses : Nat
  currentTierIndex : Nat
  sendCount : Nat
deriving DecidableEq, Repr

/-- Counter values on entry to the handler. -/
def initialCtr : LoopCtr := ⟨0, 0, 0, 0, 0, 0⟩

/-- Control flow after processing one batch item: go on to the next item,
break out of both loops (`hasMore = false`), or abort because
`recordDeliveryResult` threw (endpoint row missing). -/
inductive StepSignal where
  | nextItem
  | stopLoop
  | errorHalt
deriving DecidableEq, Repr

/-- `recordDeliveryResult` as invoked by the engine: lock and reread the
endpoint row, recompute the window from the deliveries table, write the
updated row back.  `none` models the `Endpoint not found` throw. -/
def engineRecordDeliveryResult (st : EngineState) (endpointId : Nat) (success : Bool)
    (responseTimeMs : Int) : Option (EngineState × TransitionResult) :=
  match getEndpointState st endpointId with
  | none => none
  | some endpoint =>
    let recent := recentDeliveriesQuery st.deliveries endpointId
    let out := recordDeliveryResult endpoint recent success responseTimeMs st.clock
    some
      (({ st with
          endpoints := st.endpoints.map (fun e : Endpoint =>
            if e.id = endpointId then out.1 else e) }).tick,
        out.2)

/-- The body of the inner `for (const item of batch)` loop for one item past
the `pre-check`: dedup, skip budget, mark delivering, fetch event,
rate-limit sleep, send, record delivery, circuit update, terminal item
status and counter bookkeeping. -/
def processItemBody (oracle : Nat → DeliveryResult) (endpointId : Nat) (st : EngineState)
    (c : LoopCtr) (item : RQItem) : EngineState × LoopCtr × StepSignal :=
  if dedupAlreadyDelivered st item then
      let st1 := (updItem st item.id (fun j =>
        { j with status := ReplayStatus.delivered, deliveredAt := some st.clock })).tick
      (st1, { c with totalSkipped := c.totalSkipped + 1 }, StepSignal.nextItem)
    else if item.attempts ≥ MAX_SKIP_ATTEMPTS then
      let st1 := (updItem st item.id (fun j => { j with status := ReplayStatus.skipped })).tick
      (st1, { c with totalSkipped := c.totalSkipped + 1 }, StepSignal.nextItem)
    else
      let st1 := (updItem st item.id (fun j =>
        { j with status := ReplayStatus.delivering, attempts := item.attempts + 1 })).tick
      match findEvent st1 item.eventId with
      | none =>
        let st2 := (updItem st1 item.id (fun j => { j with status := ReplayStatus.skipped })).tick
        (st2, { c with totalSkipped := c.totalSkipped + 1 }, StepSignal.nextItem)
      | some _webhookEvent =>
        let delayMs := delayMsFor c.currentTierIndex
        let st2 := if sleepPerformed delayMs
          then { st1 with sleepsMs := st1.sleepsMs ++ [delayMs] } else st1
        let result := oracle c.sendCount
        let c1 := { c with sendCount := c.sendCount + 1 }
        let classification := if result.success then none
          else some (classifyDeliveryError result.statusCode result.error result.retryAfterHeader)
        let newDelivery : DeliveryRow :=
          { eventId := item.eventId
            endpointId := some endpointId
            status := if result.success then DeliveryStatus.delivered else DeliveryStatus.failed
            statusCode := result.statusCode
            responseTimeMs := some result.responseTimeMs
            errorType := classification.map (fun cl => cl.errorType)
            attemptNumber := item.attempts + 1
            attemptedAt := st2.clock }
        let st3 := ({ st2 with deliveries := st2.deliveries ++ [newDelivery] }).tick
        match engineRecordDeliveryResult st3 endpointId result.success result.responseTimeMs with
        | none => (st3, c1, StepSignal.errorHalt)
        | some (st4, transition) =>
          if result.success then
            let st5 := (updItem st4 item.id (fun j =>
              { j with status := ReplayStatus.delivered, deliveredAt := some st4.clock })).tick
            let tierOut := tierAfterSuccess c1.currentTierIndex c1.consecutiveSuccesses
            let c2 := { c1 with
              totalDelivered := c1.totalDelivered + 1
              currentTierIndex := tierOut.1
              consecutiveSuccesses := tierOut.2 }
            (st5, c2, StepSignal.nextItem)
          else
            let st5 := (updItem st4 item.id (fun j =>
              { j with status := ReplayStatus.pending })).tick
            let c2 := { c1 with
              totalFailed := c1.totalFailed + 1
              consecutiveSuccesses := 0
              currentTierIndex := 0 }
            if transition.newState = CircuitState.opened then (st5, c2, StepSignal.stopLoop)
            else (st5, c2, StepSignal.nextItem)

/-- One item of the inner `for (const item of batch)` loop: the `pre-check`
breaker re-read, then (when the breaker is not OPEN) the body above. -/
def processItem (oracle : Nat → DeliveryResult) (endpointId : Nat) (st : EngineState)
    (c : LoopCtr) (item : RQItem) : EngineState × LoopCtr × StepSignal :=
  match getEndpointState st endpointId with
  | none => (st, c, StepSignal.stopLoop)
  | some ep =>
    if ep.circuitState = CircuitState.opened then (st, c, StepSignal.stopLoop)
    else processItemBody oracle endpointId st c item

/-- The `fetch-batch` step: pending items of the endpoint, `ORDER BY
position ASC`, `LIMIT BATCH_SIZE`. -/
def fetchBatch (st : EngineState) (endpointId : Nat) : List RQItem :=
  (((st.replayQueue.filter (fun i =>
    i.endpointId = endpointId ∧ i.status = ReplayStatus.pending)).insertionSort
      (fun a b => a.position ≤ b.position)).take BATCH_SIZE)

/-- The inner `for` loop over a fetched batch. A `nextItem` result means the
batch completed and the outer loop goes round again. -/
def runBatch (oracle : Nat → DeliveryResult) (endpointId : Nat) :
    List RQItem → EngineState → LoopCtr → EngineState × LoopCtr × StepSignal
  | [], st, c => (st, c, StepSignal.nextItem)
  | item :: rest, st, c =>
    match processItem oracle endpointId st c item with
    | (st', c', StepSignal.nextItem) => runBatch oracle endpointId rest st' c'
    | (st', c', StepSignal.stopLoop) => (st', c', StepSignal.stopLoop)
    | (st', c', StepSignal.errorHalt) => (st', c', StepSignal.errorHalt)

/-- The outer `while (hasMore)` loop: re-check the breaker, fetch a batch,
stop on empty, otherwise run the batch and (unless a break or a throw
occurred) go round again. -/
def runEngine (oracle : Nat → DeliveryResult) (endpointId : Nat) :
    Nat → EngineState → LoopCtr → EngineState × LoopCtr
  | 0, st, c => (st, c)
  | Nat.succ fuel, st, c =>
    match getEndpointState st endpointId with
    | none => (st, c)
    | some ep =>
      if ep.circuitState = CircuitState.opened then (st, c)
      else
        let batch := fetchBatch st endpointId
        if batch.isEmpty then (st, c)
        else
          match runBatch oracle endpointId batch st c with
          | (st', c', StepSignal.nextItem) => runEngine oracle endpointId fuel st' c'
          | (st', c', _) => (st', c')

/-! ## Verification infrastructure

Definitions used only by the proofs below: the run invariant of the replay
engine, the explicit list of event rows a reconciliation cycle inserts,
order instances for the batch sort, and concrete fixture states used by
witnesses and counterexamples. -/

/-- The event rows the reconciliation insert loop creates for a list of
gaps, with consecutive ids starting at `nextId` (the closed form of
`insertGaps`'s inserts). -/
def gapEvents (integrationId : String) (now : Nat) :
    List ProviderEvent → Nat → List EventRow
  | [], _ => []
  | gap :: rest, nextId =>
    gapEventRow integrationId gap nextId now :: gapEvents integrationId now rest (nextId + 1)

/-- Invariant of a replay run on one endpoint's queue: row ids are unique,
positions identify items of the endpoint, every delivered item carries a
stamp below the clock, delivered stamps respect position order, and
every delivered item precedes every still-pending item in position. -/
structure ReplayInv (endpointId : Nat) (st : EngineState) : Prop where
  ids_nodup : (st.replayQueue.map (fun i => i.id)).Nodup
  pos_inj : ∀ i ∈ st.replayQueue, ∀ j ∈ st.replayQueue,
    i.endpointId = endpointId → j.endpointId = endpointId → i.id ≠ j.id →
      i.position ≠ j.position
  delivered_clock : ∀ i ∈ st.replayQueue, i.endpointId = endpointId →
    i.status = ReplayStatus.delivered → ∃ t, i.deliveredAt = some t ∧ t < st.clock
  delivered_order : ∀ i ∈ st.replayQueue, ∀ j ∈ st.replayQueue,
    i.endpointId = endpointId → j.endpointId = endpointId →
    i.status = ReplayStatus.delivered → j.status = ReplayStatus.delivered →
    i.position < j.position →
      ∃ a b, i.deliveredAt = some a ∧ j.deliveredAt = some b ∧ a < b
  delivered_lt_pending : ∀ i ∈ st.replayQueue, ∀ j ∈ st.replayQueue,
    i.endpointId = endpointId → j.endpointId = endpointId →
    i.status = ReplayStatus.delivered → j.status = ReplayStatus.pending →
      i.position < j.position

instance : IsTotal RQItem (fun a b => a.position ≤ b.position) :=
  ⟨fun a b => Nat.le_total a.position b.position⟩

instance : IsTrans RQItem (fun a b => a.position ≤ b.position) :=
  ⟨fun _ _ _ hab hbc => Nat.le_trans hab hbc⟩

/-- Fixture: a healthy endpoint with a closed breaker. -/
def ep1 : Endpoint :=
  { id := 1, url := "u", circuitState := CircuitState.closed, successRate := 100,
    avgResponseMs := 0, consecutiveFailures := 0, consecutiveHealthChecks := 0,
    consecutiveSuccesses := 0, lastHealthCheck := none, stateChangedAt := 0 }

/-- Fixture: a half-open endpoint with nine consecutive successes. -/
def epHalf9 : Endpoint :=
  { ep1 with id := 2, circuitState := CircuitState.half_open, consecutiveSuccesses := 9 }

/-- Fixture: an endpoint with an open breaker. -/
def epOpenCB : Endpoint :=
  { ep1 with id := 3, circuitState := CircuitState.opened }

/-- Fixture: open breaker with two consecutive health-check successes. -/
def epChk2 : Endpoint :=
  { ep1 with id := 4, circuitState := CircuitState.opened, consecutiveHealthChecks := 2 }

/-- Fixture: open breaker with no health-check successes yet. -/
def epChk0 : Endpoint :=
  { ep1 with id := 5, circuitState := CircuitState.opened, consecutiveHealthChecks := 0 }

/-- Fixture: an event row with primary key `i` and no provider event id. -/
def mkEv (i : Nat) : EventRow :=
  { id := i, integrationId := "int1", eventType := "t", payload := Payload.parsed "p",
    headers := [], receivedAt := 0, signatureValid := true, providerEventId := none,
    source := EventSource.webhook }

/-- Fixture: a pending replay item with id `i` at position `pos`. -/
def mkItem (i pos : Nat) : RQItem :=
  { id := i, endpointId := 1, eventId := i, position := pos, correlationKey := some "k",
    status := ReplayStatus.pending, attempts := 0, createdAt := 0, deliveredAt := none }

/-- Fixture: a successful HTTP 200 delivery result. -/
def okResult : DeliveryResult :=
  { statusCode := some 200, responseBody := some "ok", responseTimeMs := 5, success := true,
    error := none, retryAfterHeader := none }

/-- Fixture: a failed HTTP 500 delivery result. -/
def failResult : DeliveryResult :=
  { statusCode := some 500, responseBody := none, responseTimeMs := 5, success := false,
    error := none, retryAfterHeader := none }

/-- Fixture: a failed HTTP 429 with `Retry-After: 0`. -/
def rate429Zero : DeliveryResult :=
  { statusCode := some 429, responseBody := none, responseTimeMs := 5, success := false,
    error := none, retryAfterHeader := some "0" }

/-- Fixture oracle: the first send fails with a 500, every later send
succeeds. -/
def oracleC3 : Nat → DeliveryResult := fun n => if n = 0 then failResult else okResult

/-- Fixture: two pending items of one correlation key on endpoint 1. -/
def st0C3 : EngineState :=
  { replayQueue := [mkItem 1 1, mkItem 2 2], events := [mkEv 1, mkEv 2], deliveries := [],
    endpoints := [ep1], clock := 0, sleepsMs := [] }

/-- Fixture: an event of another integration sharing provider event id `p1`. -/
def evPid : EventRow :=
  { id := 5, integrationId := "other-integration", eventType := "t",
    payload := Payload.parsed "p", headers := [], receivedAt := 0, signatureValid := true,
    providerEventId := some "p1", source := EventSource.webhook }

/-- Fixture: the replayed item's own event, provider event id `p1`. -/
def evPid2 : EventRow :=
  { id := 6, integrationId := "int1", eventType := "t", payload := Payload.parsed "p",
    headers := [], receivedAt := 0, signatureValid := true,
    providerEventId := some "p1", source := EventSource.webhook }

/-- Fixture: a delivered delivery row on a different endpoint (99). -/
def dOther : DeliveryRow :=
  { eventId := 5, endpointId := some 99, status := DeliveryStatus.delivered,
    statusCode := some 200, responseTimeMs := some 5, errorType := none,
    attemptNumber := 1, attemptedAt := 0 }

/-- Fixture: a pending replay item whose event has provider event id `p1`. -/
def itemPid : RQItem :=
  { id := 7, endpointId := 1, eventId := 6, position := 1, correlationKey := none,
    status := ReplayStatus.pending, attempts := 0, createdAt := 0, deliveredAt := none }

/-- Fixture: replay state where another endpoint already delivered `p1`. -/
def stDedup : EngineState :=
  { replayQueue := [itemPid], events := [evPid, evPid2], deliveries := [dOther],
    endpoints := [ep1], clock := 10, sleepsMs := [] }

/-- Fixture: a pending item that has already been attempted three times. -/
def itemAtt3 : RQItem :=
  { id := 8, endpointId := 1, eventId := 1, position := 5, correlationKey := none,
    status := ReplayStatus.pending, attempts := 3, createdAt := 0, deliveredAt := none }

/-- Fixture: replay state holding only the exhausted item. -/
def stSkip : EngineState :=
  { replayQueue := [itemAtt3], events := [mkEv 1], deliveries := [],
    endpoints := [ep1], clock := 20, sleepsMs := [] }

/-- Fixture: an active integration with a reconciliation credential. -/
def integ1 : Integration :=
  { id := "int1", provider := "stripe", signingSecret := "sec",
    destinationUrl := "https://example.com/hook", status := IntegrationStatus.active,
    apiKeyEncrypted := some "sk_test" }

/-- Fixture: a paused integration. -/
def integPaused : Integration :=
  { integ1 with id := "int2", status := IntegrationStatus.paused }

/-- Fixture: reconciliation database holding only `integ1`. -/
def reconDb0 : ReconDB :=
  { integrations := [integ1], events := [], reconciliationRuns := [], nextEventId := 1 }

/-- Fixture: trivial provider verifiers (verification always succeeds). -/
def pvTest : ProviderVerifiers :=
  ⟨fun _ _ _ => true, fun _ => "evt", fun _ => some "pid",
   fun _ _ _ => true, fun _ => "evt", fun _ => some "pid",
   fun _ _ _ => true, fun _ => "evt", fun _ => some "pid"⟩

/-- Fixture: ingestion database with one active and one paused integration. -/
def ingestDb : IngestDB :=
  { integrations := [integ1, integPaused], events := [], nextEventId := 1 }

end Hookwise

namespace Hookwise

/-! ## Helper lemmas -/

/-- The status-code tail of the source classifier agrees with the spec
table's tail rows. -/
theorem classifyByStatus_eq_specTail (sc : Option Int) (ra : Option String) :
    classifyByStatus sc ra = classifySpecTable sc none ra := by
  cases ra <;> rfl

/-- The integer window test equals the rational success-rate comparison of
the source (`(successes / total) * 100 < 50`). -/
theorem successRateBelow_iff (recent : List DeliveryRow) (success : Bool) :
    successRateBelow (windowSuccesses recent success) (windowTotal recent)
      ↔ windowSuccessRate recent success < (SUCCESS_RATE_OPEN_THRESHOLD : ℚ) := by
  have ht : 0 < windowTotal recent := Nat.succ_pos _
  have htpos : (0 : ℚ) < (windowTotal recent : ℚ) := by exact_mod_cast ht
  unfold windowSuccessRate
  rw [if_pos ht, div_mul_eq_mul_div, div_lt_iff₀ htpos]
  unfold successRateBelow SUCCESS_RATE_OPEN_THRESHOLD
  rw [show ((windowSuccesses recent success : ℚ) * 100)
        = ((100 * windowSuccesses recent success : ℕ) : ℚ) by push_cast; ring,
      show (((50 : ℕ) : ℚ) * (windowTotal recent : ℚ))
        = ((50 * windowTotal recent : ℕ) : ℚ) by push_cast; ring]
  exact (Nat.cast_lt).symm

/-- Unfolding of the transition table from the CLOSED state. -/
theorem nextCircuitState_closed (cf cs t s : Nat) :
    nextCircuitState CircuitState.closed cf cs t s =
      (if cf ≥ CONSECUTIVE_FAILURES_THRESHOLD ∨ (t ≥ 5 ∧ successRateBelow s t)
        then CircuitState.opened else CircuitState.closed) := rfl

/-- Unfolding of the transition table from the HALF_OPEN state. -/
theorem nextCircuitState_half_open (cf cs t s : Nat) :
    nextCircuitState CircuitState.half_open cf cs t s =
      (if cs ≥ SUCCESSES_FOR_CLOSED then CircuitState.closed
       else if cf ≥ HALF_OPEN_FAILURE_THRESHOLD then CircuitState.opened
       else CircuitState.half_open) := rfl

/-- Recorded deliveries never change an OPEN breaker. -/
theorem nextCircuitState_opened (cf cs t s : Nat) :
    nextCircuitState CircuitState.opened cf cs t s = CircuitState.opened := rfl

/-- The transition pair returned by `recordDeliveryResult`. -/
theorem recordDeliveryResult_snd (endpoint : Endpoint) (recent : List DeliveryRow)
    (success : Bool) (rt : Int) (now : Nat) :
    (recordDeliveryResult endpoint recent success rt now).2 =
      ⟨endpoint.circuitState,
        nextCircuitState endpoint.circuitState
          (newConsecutiveFailures endpoint success) (newConsecutiveSuccesses endpoint success)
          (windowTotal recent) (windowSuccesses recent success)⟩ := rfl

/-- Closed form of the reconciliation insert loop. -/
theorem insertGaps_eq (integrationId url : String) (now : Nat) :
    ∀ (gaps : List ProviderEvent) (dbSt : ReconDB) (sends : List InngestSend) (res : Nat),
    insertGaps integrationId url now gaps dbSt sends res =
      ({ dbSt with
          events := dbSt.events ++ gapEvents integrationId now gaps dbSt.nextEventId
          nextEventId := dbSt.nextEventId + gaps.length },
        sends ++ (gapEvents integrationId now gaps dbSt.nextEventId).map
          (fun e => ⟨"webhook/received", e.id, integrationId, url⟩),
        res + gaps.length) := by
  intro gaps
  induction gaps with
  | nil => intro dbSt sends res; simp [insertGaps, gapEvents]
  | cons gap rest ih =>
    intro dbSt sends res
    rw [insertGaps, ih]
    simp [gapEvents, List.append_assoc]
    omega

/-- Every reconciliation-inserted event has source `reconciliation`, a valid
signature flag and empty headers. -/
theorem gapEvents_fields (integrationId : String) (now : Nat) :
    ∀ (gaps : List ProviderEvent) (nextId : Nat),
    ∀ e ∈ gapEvents integrationId now gaps nextId,
      e.source = EventSource.reconciliation ∧ e.signatureValid = true ∧ e.headers = []
        ∧ e.integrationId = integrationId := by
  intro gaps
  induction gaps with
  | nil => intro nextId e he; simp [gapEvents] at he
  | cons gap rest ih =>
    intro nextId e he
    rcases List.mem_cons.mp he with he1 | he2
    · subst he1; exact ⟨rfl, rfl, rfl, rfl⟩
    · exact ih _ e he2

/-- The inserted events carry exactly the missing provider event ids. -/
theorem gapEvents_pids (integrationId : String) (now : Nat) :
    ∀ (gaps : List ProviderEvent) (nextId : Nat),
    (gapEvents integrationId now gaps nextId).map (fun e => e.providerEventId)
      = gaps.map (fun g => some g.id) := by
  intro gaps
  induction gaps with
  | nil => intro nextId; rfl
  | cons gap rest ih => intro nextId; simp [gapEvents, gapEventRow, ih]

/-- Past the guards, `reconcileIntegration` is its fetched stage. -/
theorem reconcile_eq_fetched (dbSt : ReconDB) (iid : String) (integ : Integration)
    (fo : Except Unit (List ProviderEvent)) (since now : Nat)
    (hfind : (dbSt.integrations.filter (fun i => i.id = iid)).head? = some integ)
    (hkey : (match integ.apiKeyEncrypted with
             | none => true
             | some k => k.isEmpty) = false) :
    reconcileIntegration dbSt iid fo since now
      = reconcileFetched dbSt iid integ fo since now := by
  unfold reconcileIntegration
  rw [hfind]
  exact if_neg (by simp [hkey])

/-- Past the pre-check, `processItem` is its body. -/
theorem processItem_eq_body (oracle : Nat → DeliveryResult) (endpointId : Nat)
    (st : EngineState) (c : LoopCtr) (item : RQItem) (ep : Endpoint)
    (hfind : getEndpointState st endpointId = some ep)
    (hnot : ep.circuitState ≠ CircuitState.opened) :
    processItem oracle endpointId st c item = processItemBody oracle endpointId st c item := by
  unfold processItem
  rw [hfind]
  exact if_neg hnot

/-- A delivered delivery joined to an event with the item's provider event
id makes the dedup query hit. -/
theorem dedupAlreadyDelivered_true (st : EngineState) (item : RQItem) (pid : String)
    (d : DeliveryRow)
    (hpid : (findEvent st item.eventId).bind (fun e : EventRow => e.providerEventId)
      = some pid)
    (hd : d ∈ st.deliveries) (hst : d.status = DeliveryStatus.delivered)
    (hde : (findEvent st d.eventId).bind (fun e : EventRow => e.providerEventId)
      = some pid) :
    dedupAlreadyDelivered st item = true := by
  unfold dedupAlreadyDelivered
  rw [hpid]
  rw [List.any_eq_true]
  exact ⟨d, hd, by simp [hst, hde]⟩

/-- A dedup hit marks the item delivered without touching the deliveries
table or consuming a send. -/
theorem processItem_dedup_case (oracle : Nat → DeliveryResult) (endpointId : Nat)
    (st : EngineState) (c : LoopCtr) (item : RQItem) (ep : Endpoint)
    (hfind : getEndpointState st endpointId = some ep)
    (hnot : ep.circuitState ≠ CircuitState.opened)
    (hdedup : dedupAlreadyDelivered st item = true) :
    processItem oracle endpointId st c item
      = ((updItem st item.id (fun j =>
            { j with status := ReplayStatus.delivered, deliveredAt := some st.clock })).tick,
          { c with totalSkipped := c.totalSkipped + 1 }, StepSignal.nextItem)
    ∧ (processItem oracle endpointId st c item).1.deliveries = st.deliveries
    ∧ (processItem oracle endpointId st c item).2.1.sendCount = c.sendCount := by
  rw [processItem_eq_body oracle endpointId st c item ep hfind hnot]
  unfold processItemBody
  rw [if_pos hdedup]
  refine ⟨rfl, ?_, rfl⟩
  simp [updItem, EngineState.tick]

/-- An exhausted skip budget marks the item skipped without touching the
deliveries table or consuming a send. -/
theorem processItem_skipbudget_case (oracle : Nat → DeliveryResult) (endpointId : Nat)
    (st : EngineState) (c : LoopCtr) (item : RQItem) (ep : Endpoint)
    (hfind : getEndpointState st endpointId = some ep)
    (hnot : ep.circuitState ≠ CircuitState.opened)
    (hdedup : dedupAlreadyDelivered st item = false)
    (hatt : item.attempts ≥ MAX_SKIP_ATTEMPTS) :
    processItem oracle endpointId st c item
      = ((updItem st item.id (fun j => { j with status := ReplayStatus.skipped })).tick,
          { c with totalSkipped := c.totalSkipped + 1 }, StepSignal.nextItem)
    ∧ (processItem oracle endpointId st c item).1.deliveries = st.deliveries
    ∧ (processItem oracle endpointId st c item).2.1.sendCount = c.sendCount := by
  rw [processItem_eq_body oracle endpointId st c item ep hfind hnot]
  unfold processItemBody
  rw [if_neg (by simp [hdedup]), if_pos hatt]
  refine ⟨rfl, ?_, rfl⟩
  simp [updItem, EngineState.tick]

/-- Queue updates do not affect event lookups. -/
theorem findEvent_updItem_tick (st : EngineState) (i : Nat) (f : RQItem → RQItem)
    (eventId : Nat) :
    findEvent ((updItem st i f).tick) eventId = findEvent st eventId := rfl

end Hookwise

namespace Hookwise

theorem processItem_send_counters (oracle : Nat → DeliveryResult) (endpointId : Nat)
    (st : EngineState) (c : LoopCtr) (item : RQItem) (ep : Endpoint) (ev : EventRow)
    (hfind : getEndpointState st endpointId = some ep)
    (hnot : ep.circuitState ≠ CircuitState.opened)
    (hdedup : dedupAlreadyDelivered st item = false)
    (hatt : item.attempts < MAX_SKIP_ATTEMPTS)
    (hev : findEvent st item.eventId = some ev) :
    ((oracle c.sendCount).success = true →
      (processItem oracle endpointId st c item).2.1.currentTierIndex
          = (tierAfterSuccess c.currentTierIndex c.consecutiveSuccesses).1
      ∧ (processItem oracle endpointId st c item).2.1.consecutiveSuccesses
          = (tierAfterSuccess c.currentTierIndex c.consecutiveSuccesses).2)
    ∧ ((oracle c.sendCount).success = false →
      (processItem oracle endpointId st c item).2.1.currentTierIndex = 0
      ∧ (processItem oracle endpointId st c item).2.1.consecutiveSuccesses = 0)
    ∧ (processItem oracle endpointId st c item).2.1.sendCount = c.sendCount + 1
    ∧ (processItem oracle endpointId st c item).1.sleepsMs
        = (if sleepPerformed (delayMsFor c.currentTierIndex)
           then st.sleepsMs ++ [delayMsFor c.currentTierIndex] else st.sleepsMs) := by
  rw [processItem_eq_body oracle endpointId st c item ep hfind hnot]
  have hfind' : (st.endpoints.filter (fun e => e.id = endpointId)).head? = some ep := hfind
  simp only [processItemBody, hdedup, Bool.false_eq_true, if_false,
    if_neg (Nat.not_le.mpr hatt), findEvent_updItem_tick, hev]
  by_cases hsleep : sleepPerformed (delayMsFor c.currentTierIndex) = true
  · simp only [hsleep, if_true, engineRecordDeliveryResult, getEndpointState, updItem,
      EngineState.tick, hfind']
    cases hres : (oracle c.sendCount).success with
    | true =>
      simp only [hres, if_true]
      exact ⟨fun _ => ⟨by trivial, by trivial⟩, fun hcontr => by simp at hcontr, by trivial, by trivial⟩
    | false =>
      simp only [hres, Bool.false_eq_true, if_false]
      refine ⟨fun hcontr => by simp at hcontr, fun _ => ?_, ?_, ?_⟩ <;> split_ifs <;>
        first | exact ⟨by trivial, by trivial⟩ | trivial
  · rw [Bool.not_eq_true] at hsleep
    simp only [hsleep, Bool.false_eq_true, if_false, engineRecordDeliveryResult,
      getEndpointState, updItem, EngineState.tick, hfind']
    cases hres : (oracle c.sendCount).success with
    | true =>
      simp only [hres, if_true]
      exact ⟨fun _ => ⟨by trivial, by trivial⟩, fun hcontr => by simp at hcontr, by trivial, by trivial⟩
    | false =>
      simp only [hres, Bool.false_eq_true, if_false]
      refine ⟨fun hcontr => by simp at hcontr, fun _ => ?_, ?_, ?_⟩ <;> split_ifs <;>
        first | exact ⟨by trivial, by trivial⟩ | trivial



theorem fetchBatch_mem (st : EngineState) (endpointId : Nat) :
    ∀ r ∈ fetchBatch st endpointId,
      r ∈ st.replayQueue ∧ r.endpointId = endpointId ∧ r.status = ReplayStatus.pending := by
  intro r hr
  unfold fetchBatch at hr
  have h1 : r ∈ (st.replayQueue.filter (fun i =>
      i.endpointId = endpointId ∧ i.status = ReplayStatus.pending)).insertionSort
        (fun a b => a.position ≤ b.position) := List.mem_of_mem_take hr
  have h2 := (List.perm_insertionSort (fun a b : RQItem => a.position ≤ b.position) _).mem_iff.mp h1
  have h3 := List.mem_filter.mp h2
  have h4 := of_decide_eq_true h3.2
  exact ⟨h3.1, h4.1, h4.2⟩

theorem fetchBatch_sorted (st : EngineState) (endpointId : Nat) :
    (fetchBatch st endpointId).Pairwise (fun a b => a.position ≤ b.position) := by
  unfold fetchBatch
  exact List.Pairwise.take (List.sorted_insertionSort _ _)

theorem fetchBatch_ids_nodup (st : EngineState) (endpointId : Nat)
    (h : (st.replayQueue.map (fun i => i.id)).Nodup) :
    ((fetchBatch st endpointId).map (fun i => i.id)).Nodup := by
  have h1 : ((st.replayQueue.filter (fun i =>
      i.endpointId = endpointId ∧ i.status = ReplayStatus.pending)).map
        (fun i => i.id)).Nodup :=
    h.sublist ((List.filter_sublist _).map _)
  have hperm : (((st.replayQueue.filter (fun i =>
      i.endpointId = endpointId ∧ i.status = ReplayStatus.pending)).insertionSort
        (fun a b => a.position ≤ b.position)).map (fun i => i.id)).Perm
      ((st.replayQueue.filter (fun i =>
        i.endpointId = endpointId ∧ i.status = ReplayStatus.pending)).map
          (fun i => i.id)) :=
    (List.perm_insertionSort _ _).map _
  have h2 := h1.perm hperm.symm
  unfold fetchBatch
  exact h2.sublist ((List.take_sublist _ _).map _)

theorem fetchBatch_sorted_strict (st : EngineState) (endpointId : Nat)
    (hids : (st.replayQueue.map (fun i => i.id)).Nodup)
    (hposinj : ∀ i ∈ st.replayQueue, ∀ j ∈ st.replayQueue,
      i.endpointId = endpointId → j.endpointId = endpointId → i.id ≠ j.id →
        i.position ≠ j.position) :
    (fetchBatch st endpointId).Pairwise (fun a b => a.position < b.position) := by
  have hsorted := fetchBatch_sorted st endpointId
  have hne : (fetchBatch st endpointId).Pairwise (fun a b => a.id ≠ b.id) :=
    (List.pairwise_map).mp (fetchBatch_ids_nodup st endpointId hids)
  have hand := hsorted.and hne
  refine hand.imp_of_mem ?_
  intro a b ha hb hab
  have hma := fetchBatch_mem st endpointId a ha
  have hmb := fetchBatch_mem st endpointId b hb
  exact Nat.lt_of_le_of_ne hab.1
    (hposinj a hma.1 b hmb.1 hma.2.1 hmb.2.1 hab.2)

theorem fetchBatch_min (st : EngineState) (endpointId : Nat)
    (hids : (st.replayQueue.map (fun i => i.id)).Nodup)
    (hposinj : ∀ i ∈ st.replayQueue, ∀ j ∈ st.replayQueue,
      i.endpointId = endpointId → j.endpointId = endpointId → i.id ≠ j.id →
        i.position ≠ j.position) :
    ∀ q ∈ st.replayQueue, q.endpointId = endpointId → q.status = ReplayStatus.pending →
      (∀ r ∈ fetchBatch st endpointId, r.id ≠ q.id) →
      ∀ r ∈ fetchBatch st endpointId, r.position < q.position := by
  intro q hq hqe hqs hnotin r hr
  have hqf : q ∈ (st.replayQueue.filter (fun i =>
      i.endpointId = endpointId ∧ i.status = ReplayStatus.pending)) :=
    List.mem_filter.mpr ⟨hq, by simp [hqe, hqs]⟩
  have hqs' : q ∈ (st.replayQueue.filter (fun i =>
      i.endpointId = endpointId ∧ i.status = ReplayStatus.pending)).insertionSort
        (fun a b => a.position ≤ b.position) :=
    (List.perm_insertionSort (fun a b : RQItem => a.position ≤ b.position) _).mem_iff.mpr hqf
  have hsplit := List.take_append_drop BATCH_SIZE
    ((st.replayQueue.filter (fun i =>
      i.endpointId = endpointId ∧ i.status = ReplayStatus.pending)).insertionSort
        (fun a b => a.position ≤ b.position))
  have hps : ((st.replayQueue.filter (fun i =>
      i.endpointId = endpointId ∧ i.status = ReplayStatus.pending)).insertionSort
        (fun a b => a.position ≤ b.position)).Pairwise
      (fun a b => a.position ≤ b.position) := List.sorted_insertionSort _ _
  rw [← hsplit] at hps hqs'
  have happ := List.pairwise_append.mp hps
  have hqdrop : q ∈ ((st.replayQueue.filter (fun i =>
      i.endpointId = endpointId ∧ i.status = ReplayStatus.pending)).insertionSort
        (fun a b => a.position ≤ b.position)).drop BATCH_SIZE := by
    rcases List.mem_append.mp hqs' with hin | hin
    · exact absurd rfl (hnotin q hin)
    · exact hin
  have hle : r.position ≤ q.position := happ.2.2 r hr q hqdrop
  have hrm := fetchBatch_mem st endpointId r hr
  exact Nat.lt_of_le_of_ne hle (hposinj r hrm.1 q hq hrm.2.1 hqe (hnotin r hr))



theorem processItem_success_outcome (oracle : Nat → DeliveryResult) (endpointId : Nat)
    (st : EngineState) (c : LoopCtr) (x : RQItem)
    (hsucc : ∀ n, (oracle n).success = true) :
    ((processItem oracle endpointId st c x).2.2 = StepSignal.stopLoop
      ∧ (processItem oracle endpointId st c x).1 = st)
    ∨ ∃ g : RQItem → RQItem,
      (processItem oracle endpointId st c x).2.2 = StepSignal.nextItem
      ∧ (processItem oracle endpointId st c x).1.replayQueue
          = st.replayQueue.map (fun j => if j.id = x.id then g j else j)
      ∧ (∀ j, (g j).id = j.id ∧ (g j).position = j.position
          ∧ (g j).endpointId = j.endpointId)
      ∧ (∀ j, (g j).status = ReplayStatus.delivered ∨ (g j).status = ReplayStatus.skipped)
      ∧ (∀ j, (g j).status = ReplayStatus.delivered →
          ∃ t, (g j).deliveredAt = some t ∧ st.clock ≤ t
            ∧ t < (processItem oracle endpointId st c x).1.clock)
      ∧ st.clock < (processItem oracle endpointId st c x).1.clock := by
  cases hfind : getEndpointState st endpointId with
  | none =>
    have hstop : processItem oracle endpointId st c x = (st, c, StepSignal.stopLoop) := by
      unfold processItem
      rw [hfind]
    rw [hstop]
    exact Or.inl ⟨rfl, rfl⟩
  | some ep =>
    by_cases hopen : ep.circuitState = CircuitState.opened
    · have hstop : processItem oracle endpointId st c x = (st, c, StepSignal.stopLoop) := by
        unfold processItem
        rw [hfind]
        exact if_pos hopen
      rw [hstop]
      exact Or.inl ⟨rfl, rfl⟩
    rw [processItem_eq_body oracle endpointId st c x ep hfind hopen]
    by_cases hdedup : dedupAlreadyDelivered st x = true
    · refine Or.inr ⟨fun j =>
        { j with status := ReplayStatus.delivered, deliveredAt := some st.clock }, ?_⟩
      unfold processItemBody
      rw [if_pos hdedup]
      refine ⟨rfl, rfl, fun j => ⟨rfl, rfl, rfl⟩, fun j => Or.inl rfl, fun j _ => ?_, ?_⟩
      · exact ⟨st.clock, rfl, Nat.le_refl _, Nat.lt_succ_self _⟩
      · exact Nat.lt_succ_self _
      done
    rw [Bool.not_eq_true] at hdedup
    by_cases hatt : x.attempts ≥ MAX_SKIP_ATTEMPTS
    · refine Or.inr ⟨fun j => { j with status := ReplayStatus.skipped }, ?_⟩
      unfold processItemBody
      rw [if_neg (by simp [hdedup]), if_pos hatt]
      refine ⟨rfl, rfl, fun j => ⟨rfl, rfl, rfl⟩, fun j => Or.inr rfl, fun j hj => ?_, ?_⟩
      · simp at hj
      · exact Nat.lt_succ_self _
    have hattlt : x.attempts < MAX_SKIP_ATTEMPTS := Nat.lt_of_not_le hatt
    cases hev : findEvent st x.eventId with
    | none =>
      refine Or.inr ⟨fun j =>
        { j with status := ReplayStatus.skipped, attempts := x.attempts + 1 }, ?_⟩
      simp only [processItemBody, hdedup, Bool.false_eq_true, if_false,
        if_neg (Nat.not_le.mpr hattlt), findEvent_updItem_tick, hev]
      refine ⟨by trivial, ?_, fun j => ⟨by trivial, by trivial, by trivial⟩,
        fun j => Or.inr (by trivial), fun j hj => ?_,
        by (first
          | trivial
          | omega
          | (simp only [updItem, EngineState.tick, if_true]; omega)
          | (simp; omega))⟩
      · simp only [updItem, EngineState.tick, List.map_map]
        apply List.map_congr_left
        intro j _
        by_cases hj : j.id = x.id
        · simp [Function.comp, hj]
        · simp [Function.comp, hj]
      · simp at hj
    | some ev =>
      have hfind' : (st.endpoints.filter (fun e => e.id = endpointId)).head? = some ep := hfind
      refine Or.inr ⟨fun j => { j with status := ReplayStatus.delivered, attempts := x.attempts + 1, deliveredAt := some (st.clock + 3) }, ?_⟩
      simp only [processItemBody, hdedup, Bool.false_eq_true, if_false,
        if_neg (Nat.not_le.mpr hattlt), findEvent_updItem_tick, hev]
      by_cases hsleep : sleepPerformed (delayMsFor c.currentTierIndex) = true
      · simp only [hsleep, if_true, engineRecordDeliveryResult, getEndpointState, updItem,
          EngineState.tick, hfind', hsucc c.sendCount]
        refine ⟨by trivial, ?_, fun j => ⟨by trivial, by trivial, by trivial⟩,
          fun j => Or.inl (by trivial), fun j _ => ?_,
          by (first
          | trivial
          | omega
          | (simp only [updItem, EngineState.tick, if_true]; omega)
          | (simp; omega))⟩
        · simp only [List.map_map]
          apply List.map_congr_left
          intro j _
          by_cases hj : j.id = x.id
          · simp [Function.comp, hj]
          · simp [Function.comp, hj]
        · refine ⟨st.clock + 3, ?_⟩
          repeat' apply And.intro
          all_goals (first
            | trivial
            | omega
            | (simp only [updItem, EngineState.tick, if_true]; omega)
            | (simp; omega))
      · rw [Bool.not_eq_true] at hsleep
        simp only [hsleep, Bool.false_eq_true, if_false, engineRecordDeliveryResult,
          getEndpointState, updItem, EngineState.tick, hfind', hsucc c.sendCount]
        refine ⟨by trivial, ?_, fun j => ⟨by trivial, by trivial, by trivial⟩,
          fun j => Or.inl (by trivial), fun j _ => ?_,
          by (first
          | trivial
          | omega
          | (simp only [updItem, EngineState.tick, if_true]; omega)
          | (simp; omega))⟩
        · simp only [List.map_map]
          apply List.map_congr_left
          intro j _
          by_cases hj : j.id = x.id
          · simp [Function.comp, hj]
          · simp [Function.comp, hj]
        · refine ⟨st.clock + 3, ?_⟩
          repeat' apply And.intro
          all_goals (first
            | trivial
            | omega
            | (simp only [updItem, EngineState.tick, if_true]; omega)
            | (simp; omega))



/-- Invariant of the replay run on one endpoint's queue items: row ids are
unique, positions identify items, every delivered item carries a stamp
below the clock, delivered stamps respect position order, and every
delivered item precedes every still-pending item in position. -/
theorem ReplayInv_step (endpointId : Nat) (st st' : EngineState) (xid xpos : Nat)
    (g : RQItem → RQItem)
    (hinv : ReplayInv endpointId st)
    (hqx : ∃ qx ∈ st.replayQueue, qx.id = xid ∧ qx.position = xpos
      ∧ qx.endpointId = endpointId ∧ qx.status = ReplayStatus.pending)
    (hxmin : ∀ q ∈ st.replayQueue, q.endpointId = endpointId →
      q.status = ReplayStatus.pending → q.id ≠ xid → xpos < q.position)
    (hqueue : st'.replayQueue = st.replayQueue.map (fun j => if j.id = xid then g j else j))
    (hg1 : ∀ j, (g j).id = j.id ∧ (g j).position = j.position
      ∧ (g j).endpointId = j.endpointId)
    (hg2 : ∀ j, (g j).status = ReplayStatus.delivered ∨ (g j).status = ReplayStatus.skipped)
    (hg3 : ∀ j, (g j).status = ReplayStatus.delivered →
      ∃ t, (g j).deliveredAt = some t ∧ st.clock ≤ t ∧ t < st'.clock)
    (hclock : st.clock < st'.clock) :
    ReplayInv endpointId st' := by
  obtain ⟨qx, hqxmem, hqxid, hqxpos, hqxe, hqxs⟩ := hqx
  have hproj : ∀ j : RQItem,
      (if j.id = xid then g j else j).id = j.id
      ∧ (if j.id = xid then g j else j).position = j.position
      ∧ (if j.id = xid then g j else j).endpointId = j.endpointId := by
    intro j
    by_cases hj : j.id = xid
    · rw [if_pos hj]
      exact ⟨(hg1 j).1, (hg1 j).2.1, (hg1 j).2.2⟩
    · rw [if_neg hj]
      exact ⟨rfl, rfl, rfl⟩
  have hsame : ∀ j : RQItem, j.id ≠ xid →
      (if j.id = xid then g j else j) = j := by
    intro j hj
    rw [if_neg hj]
  -- uniqueness of the id within the queue
  have huniq : ∀ a ∈ st.replayQueue, ∀ b ∈ st.replayQueue, a.id = b.id → a = b := by
    intro a ha b hb hab
    exact List.inj_on_of_nodup_map hinv.ids_nodup ha hb hab
  refine ⟨?_, ?_, ?_, ?_, ?_⟩
  · rw [hqueue, List.map_map]
    have : ((fun i => i.id) ∘ fun j => if j.id = xid then g j else j)
        = fun j : RQItem => j.id := by
      funext j
      simp only [Function.comp]
      exact (hproj j).1
    rw [this]
    exact hinv.ids_nodup
  · intro i' hi' j' hj' hie hje hne
    rw [hqueue] at hi' hj'
    obtain ⟨i, hi, hieq⟩ := List.mem_map.mp hi'
    obtain ⟨j, hj, hjeq⟩ := List.mem_map.mp hj'
    subst hieq hjeq
    rw [(hproj i).2.1, (hproj j).2.1]
    exact hinv.pos_inj i hi j hj ((hproj i).2.2 ▸ hie) ((hproj j).2.2 ▸ hje)
      (fun h => hne (by rw [(hproj i).1, (hproj j).1]; exact h))
  · intro i' hi' hie hid
    rw [hqueue] at hi'
    obtain ⟨i, hi, hieq⟩ := List.mem_map.mp hi'
    subst hieq
    by_cases hix : i.id = xid
    · simp only [if_pos hix] at hid ⊢
      obtain ⟨t, ht, _, htlt⟩ := hg3 i hid
      exact ⟨t, ht, htlt⟩
    · simp only [if_neg hix] at hid hie ⊢
      obtain ⟨t, ht, htlt⟩ := hinv.delivered_clock i hi hie hid
      exact ⟨t, ht, Nat.lt_trans htlt hclock⟩
  · intro i' hi' j' hj' hie hje hid hjd hpos
    rw [hqueue] at hi' hj'
    obtain ⟨i, hi, hieq⟩ := List.mem_map.mp hi'
    obtain ⟨j, hj, hjeq⟩ := List.mem_map.mp hj'
    subst hieq hjeq
    rw [(hproj i).2.1, (hproj j).2.1] at hpos
    by_cases hix : i.id = xid <;> by_cases hjx : j.id = xid
    · -- both are the processed item: same element, contradiction with hpos
      have : i = j := huniq i hi j hj (hix.trans hjx.symm)
      subst this
      exact absurd hpos (Nat.lt_irrefl _)
    · -- i is the processed item, j an old delivered one: impossible
      have hiqx : i = qx := huniq i hi qx hqxmem (hix.trans hqxid.symm)
      subst hiqx
      rw [hsame j hjx] at hjd hje
      have := hinv.delivered_lt_pending j hj i hi hje ((hproj i).2.2 ▸ hie) hjd hqxs
      exact absurd (Nat.lt_trans this hpos) (Nat.lt_irrefl _)
    · -- j is the processed item, i old delivered
      have hjqx : j = qx := huniq j hj qx hqxmem (hjx.trans hqxid.symm)
      rw [hsame i hix] at hid hie ⊢
      obtain ⟨a, ha, halt⟩ := hinv.delivered_clock i hi hie hid
      simp only [if_pos hjx] at hjd ⊢
      obtain ⟨b, hb, hble, _⟩ := hg3 j hjd
      exact ⟨a, b, ha, hb, Nat.lt_of_lt_of_le halt hble⟩
    · rw [hsame i hix] at hid hie ⊢
      rw [hsame j hjx] at hjd hje ⊢
      exact hinv.delivered_order i hi j hj hie hje hid hjd hpos
  · intro i' hi' j' hj' hie hje hid hjp
    rw [hqueue] at hi' hj'
    obtain ⟨i, hi, hieq⟩ := List.mem_map.mp hi'
    obtain ⟨j, hj, hjeq⟩ := List.mem_map.mp hj'
    subst hieq hjeq
    have hjx : j.id ≠ xid := by
      intro hjx
      rw [if_pos hjx] at hjp
      rcases hg2 j with h | h <;> rw [h] at hjp <;> cases hjp
    rw [hsame j hjx] at hjp hje ⊢
    by_cases hix : i.id = xid
    · have hiqx : i = qx := huniq i hi qx hqxmem (hix.trans hqxid.symm)
      subst hiqx
      rw [(hproj i).2.1]
      rw [hqxpos]
      exact hxmin j hj hje hjp (fun h => hjx (h.trans rfl))
    · rw [hsame i hix] at hid hie ⊢
      exact hinv.delivered_lt_pending i hi j hj hie hje hid hjp



theorem runBatch_preserves (oracle : Nat → DeliveryResult) (endpointId : Nat)
    (hsucc : ∀ n, (oracle n).success = true) :
    ∀ (rs : List RQItem) (st : EngineState) (c : LoopCtr),
    ReplayInv endpointId st →
    (∀ r ∈ rs, r.endpointId = endpointId ∧ ∃ q ∈ st.replayQueue,
      q.id = r.id ∧ q.position = r.position ∧ q.endpointId = endpointId
        ∧ q.status = ReplayStatus.pending) →
    rs.Pairwise (fun a b => a.position < b.position) →
    (∀ q ∈ st.replayQueue, q.endpointId = endpointId → q.status = ReplayStatus.pending →
      (∀ r ∈ rs, r.id ≠ q.id) → ∀ r ∈ rs, r.position < q.position) →
    ReplayInv endpointId (runBatch oracle endpointId rs st c).1 := by
  intro rs
  induction rs with
  | nil =>
    intro st c hinv _ _ _
    exact hinv
  | cons x rest ih =>
    intro st c hinv hcopies hsorted hmin
    obtain ⟨hxe, qx, hqxmem, hqxid, hqxpos, hqxe, hqxs⟩ := hcopies x (List.mem_cons_self x rest)
    have houtcome := processItem_success_outcome oracle endpointId st c x hsucc
    rcases hp : processItem oracle endpointId st c x with ⟨st', c', sig⟩
    rw [hp] at houtcome
    have hrb : runBatch oracle endpointId (x :: rest) st c
        = (match (st', c', sig) with
           | (st', c', StepSignal.nextItem) => runBatch oracle endpointId rest st' c'
           | (st', c', StepSignal.stopLoop) => (st', c', StepSignal.stopLoop)
           | (st', c', StepSignal.errorHalt) => (st', c', StepSignal.errorHalt)) := by
      rw [runBatch, hp]
    rw [hrb]
    -- distinctness of ids between x and queue elements sharing ids with rest
    have huniq : ∀ a ∈ st.replayQueue, ∀ b ∈ st.replayQueue, a.id = b.id → a = b :=
      fun a ha b hb hab => List.inj_on_of_nodup_map hinv.ids_nodup ha hb hab
    cases sig with
    | nextItem =>
      rcases houtcome with ⟨hsig, _⟩ | ⟨g, _, hqueue, hg1, hg2, hg3, hclock⟩
      · exact absurd hsig (by simp)
      show ReplayInv endpointId (runBatch oracle endpointId rest st' c').1
      -- x is minimal among currently pending endpoint items
      have hxmin : ∀ q ∈ st.replayQueue, q.endpointId = endpointId →
          q.status = ReplayStatus.pending → q.id ≠ x.id → x.position < q.position := by
        intro q hq hqe hqs hqne
        by_cases hex : ∃ r ∈ rest, r.id = q.id
        · obtain ⟨r, hr, hrid⟩ := hex
          obtain ⟨hre, qr, hqrmem, hqrid, hqrpos, _, _⟩ := hcopies r (List.mem_cons_of_mem x hr)
          have : q = qr := huniq q hq qr hqrmem (by rw [hrid] at hqrid; exact hqrid.symm)
          subst this
          have hxr : x.position < r.position := (List.pairwise_cons.mp hsorted).1 r hr
          rw [hqrpos]
          exact hxr
        · push_neg at hex
          have hall : ∀ r ∈ x :: rest, r.id ≠ q.id := by
            intro r hr
            rcases List.mem_cons.mp hr with h | h
            · subst h; exact fun hc => hqne hc.symm
            · exact hex r h
          have := hmin q hq hqe hqs hall x (List.mem_cons_self x rest)
          exact this
      have hinv' : ReplayInv endpointId st' :=
        ReplayInv_step endpointId st st' x.id x.position g hinv
          ⟨qx, hqxmem, hqxid, hqxpos, hqxe, hqxs⟩
          (by
            intro q hq hqe hqs hqne
            exact hxmin q hq hqe hqs hqne)
          hqueue hg1 hg2 hg3 hclock
      -- rest ids differ from x.id
      have hrestne : ∀ r ∈ rest, r.id ≠ x.id := by
        intro r hr hrx
        obtain ⟨_, qr, hqrmem, hqrid, hqrpos, _, _⟩ := hcopies r (List.mem_cons_of_mem x hr)
        have : qr = qx := huniq qr hqrmem qx hqxmem (by rw [hqrid, hrx, hqxid])
        have hpos : r.position = x.position := by
          rw [← hqrpos, this, hqxpos]
        have hxr : x.position < r.position := (List.pairwise_cons.mp hsorted).1 r hr
        rw [hpos] at hxr
        exact Nat.lt_irrefl _ hxr
      refine ih st' c' hinv' ?_ (List.pairwise_cons.mp hsorted).2 ?_
      · intro r hr
        obtain ⟨hre, qr, hqrmem, hqrid, hqrpos, hqre, hqrs⟩ :=
          hcopies r (List.mem_cons_of_mem x hr)
        refine ⟨hre, ?_⟩
        have hmem' : (if qr.id = x.id then g qr else qr) ∈ st'.replayQueue := by
          rw [hqueue]
          exact List.mem_map_of_mem _ hqrmem
        rw [if_neg (by rw [hqrid]; exact hrestne r hr)] at hmem'
        exact ⟨qr, hmem', hqrid, hqrpos, hqre, hqrs⟩
      · intro q' hq' hq'e hq's hq'ne
        rw [hqueue] at hq'
        obtain ⟨q, hq, hqeq⟩ := List.mem_map.mp hq'
        have hqx : q.id ≠ x.id := by
          intro hcontr
          rw [← hqeq, if_pos hcontr] at hq's
          rcases hg2 q with h | h <;> rw [h] at hq's <;> cases hq's
        rw [if_neg hqx] at hqeq
        subst hqeq
        have hallne : ∀ r ∈ x :: rest, r.id ≠ q.id := by
          intro r hr
          rcases List.mem_cons.mp hr with h | h
          · subst h; exact fun hc => hqx hc.symm
          · exact hq'ne r h
        intro r hr
        exact hmin q hq hq'e hq's hallne r (List.mem_cons_of_mem x hr)
    | stopLoop =>
      rcases houtcome with ⟨_, hst⟩ | ⟨_, hsig, _⟩
      · show ReplayInv endpointId st'
        exact (show st' = st from hst) ▸ hinv
      · exact absurd hsig (by simp)
    | errorHalt =>
      rcases houtcome with ⟨hsig, _⟩ | ⟨_, hsig, _⟩ <;> exact absurd hsig (by simp)



theorem runEngine_preserves (oracle : Nat → DeliveryResult) (endpointId : Nat)
    (hsucc : ∀ n, (oracle n).success = true) :
    ∀ (fuel : Nat) (st : EngineState) (c : LoopCtr),
    ReplayInv endpointId st →
    ReplayInv endpointId (runEngine oracle endpointId fuel st c).1 := by
  intro fuel
  induction fuel with
  | zero => intro st c hinv; exact hinv
  | succ fuel ih =>
    intro st c hinv
    cases hfind : getEndpointState st endpointId with
    | none =>
      have heq : runEngine oracle endpointId (fuel + 1) st c = (st, c) := by
        unfold runEngine
        rw [hfind]
      rw [heq]
      exact hinv
    | some ep =>
      by_cases hopen : ep.circuitState = CircuitState.opened
      · have heq : runEngine oracle endpointId (fuel + 1) st c = (st, c) := by
          unfold runEngine
          rw [hfind]
          exact if_pos hopen
        rw [heq]
        exact hinv
      by_cases hempty : (fetchBatch st endpointId).isEmpty = true
      · have heq : runEngine oracle endpointId (fuel + 1) st c = (st, c) := by
          unfold runEngine
          rw [hfind]
          exact (if_neg hopen).trans (if_pos hempty)
        rw [heq]
        exact hinv
      rw [Bool.not_eq_true] at hempty
      rcases hb : runBatch oracle endpointId (fetchBatch st endpointId) st c
        with ⟨st', c', sig⟩
      have hpres : ReplayInv endpointId st' := by
        have h := runBatch_preserves oracle endpointId hsucc (fetchBatch st endpointId) st c
          hinv
          (by
            intro r hr
            obtain ⟨hmem, hre, hrs⟩ := fetchBatch_mem st endpointId r hr
            exact ⟨hre, r, hmem, rfl, rfl, hre, hrs⟩)
          (fetchBatch_sorted_strict st endpointId hinv.ids_nodup hinv.pos_inj)
          (by
            intro q hq hqe hqs hne r hr
            exact fetchBatch_min st endpointId hinv.ids_nodup hinv.pos_inj q hq hqe hqs hne r hr)
        rw [hb] at h
        exact h
      simp only [runEngine, hfind, if_neg hopen, hempty, Bool.false_eq_true, if_false, hb]
      cases sig with
      | nextItem => exact ih st' c' hpres
      | stopLoop => exact hpres
      | errorHalt => exact hpres

end Hookwise

namespace Hookwise

/-! ## Claim theorems -/

/-- Claim C1: `recordDeliveryResult` follows the §4.C transition table
exactly.  The returned transition records the previous state; from CLOSED the
new state is OPEN iff the updated consecutive-failure counter reaches 5 or
the sliding window (the 20 most recent persisted deliveries plus the
incoming one) has size ≥ 5 with success rate below 50%, and otherwise stays
CLOSED; from HALF_OPEN it is CLOSED iff consecutive successes reach 10, OPEN
iff consecutive failures reach 2, and otherwise stays HALF_OPEN; from OPEN a
recorded delivery never changes the state; and the new state is always one
of the three enum values. -/
theorem circuit_recordDelivery_table (endpoint : Endpoint) (recent : List DeliveryRow)
    (success : Bool) (rt : Int) (now : Nat) :
    (recordDeliveryResult endpoint recent success rt now).2.previousState
        = endpoint.circuitState
    ∧ (endpoint.circuitState = CircuitState.closed →
        ((recordDeliveryResult endpoint recent success rt now).2.newState
            = CircuitState.opened ↔
          newConsecutiveFailures endpoint success ≥ CONSECUTIVE_FAILURES_THRESHOLD
            ∨ (windowTotal recent ≥ 5
                ∧ windowSuccessRate recent success < (SUCCESS_RATE_OPEN_THRESHOLD : ℚ)))
        ∧ (¬ (newConsecutiveFailures endpoint success ≥ CONSECUTIVE_FAILURES_THRESHOLD
            ∨ (windowTotal recent ≥ 5
                ∧ windowSuccessRate recent success < (SUCCESS_RATE_OPEN_THRESHOLD : ℚ))) →
          (recordDeliveryResult endpoint recent success rt now).2.newState
            = CircuitState.closed))
    ∧ (endpoint.circuitState = CircuitState.half_open →
        ((recordDeliveryResult endpoint recent success rt now).2.newState
            = CircuitState.closed ↔
          newConsecutiveSuccesses endpoint success ≥ SUCCESSES_FOR_CLOSED)
        ∧ ((recordDeliveryResult endpoint recent success rt now).2.newState
            = CircuitState.opened ↔
          newConsecutiveFailures endpoint success ≥ HALF_OPEN_FAILURE_THRESHOLD)
        ∧ (newConsecutiveSuccesses endpoint success < SUCCESSES_FOR_CLOSED →
            newConsecutiveFailures endpoint success < HALF_OPEN_FAILURE_THRESHOLD →
          (recordDeliveryResult endpoint recent success rt now).2.newState
            = CircuitState.half_open))
    ∧ (endpoint.circuitState = CircuitState.opened →
        (recordDeliveryResult endpoint recent success rt now).2.newState
          = CircuitState.opened)
    ∧ ((recordDeliveryResult endpoint recent success rt now).2.newState = CircuitState.closed
        ∨ (recordDeliveryResult endpoint recent success rt now).2.newState
            = CircuitState.half_open
        ∨ (recordDeliveryResult endpoint recent success rt now).2.newState
            = CircuitState.opened) := by
  have hnew : (recordDeliveryResult endpoint recent success rt now).2.newState
      = nextCircuitState endpoint.circuitState (newConsecutiveFailures endpoint success)
          (newConsecutiveSuccesses endpoint success) (windowTotal recent)
          (windowSuccesses recent success) := rfl
  refine ⟨rfl, ?_, ?_, ?_, ?_⟩
  · intro hc
    rw [hnew, hc, nextCircuitState_closed, ← successRateBelow_iff recent success]
    split_ifs with h
    · simp [h]
    · simp [h]
  · intro hc
    rw [hnew, hc, nextCircuitState_half_open]
    unfold newConsecutiveFailures newConsecutiveSuccesses SUCCESSES_FOR_CLOSED
      HALF_OPEN_FAILURE_THRESHOLD
    cases success <;> split_ifs <;> simp_all <;> omega
  · intro hc
    rw [hnew, hc, nextCircuitState_opened]
  · rw [hnew]
    cases nextCircuitState endpoint.circuitState (newConsecutiveFailures endpoint success)
      (newConsecutiveSuccesses endpoint success) (windowTotal recent)
      (windowSuccesses recent success) <;> simp

/-- Witness for C1: concrete transitions on the fixtures — a CLOSED endpoint
reports its previous state, a HALF_OPEN endpoint at 9 consecutive successes
closes on the 10th, and an OPEN endpoint is unchanged by a recorded
delivery. -/
theorem circuit_recordDelivery_table_witness :
    (recordDeliveryResult ep1 [] false 5 0).2.previousState = CircuitState.closed
    ∧ (recordDeliveryResult epHalf9 [] true 5 0).2.newState = CircuitState.closed
    ∧ (recordDeliveryResult epOpenCB [] true 5 0).2.newState = CircuitState.opened :=
  ⟨(circuit_recordDelivery_table ep1 [] false 5 0).1,
   ((circuit_recordDelivery_table epHalf9 [] true 5 0).2.2.1 rfl).1.mpr (by decide),
   (circuit_recordDelivery_table epOpenCB [] true 5 0).2.2.2.1 rfl⟩

/-- Claim C2: on every input triple, `classifyDeliveryError` returns exactly
the tuple given by the first matching row of the §4.E table
(`classifySpecTable`, the table transcribed from the spec's own wording). -/
theorem classifyDeliveryError_matches_specTable (sc : Option Int) (err : Option String)
    (ra : Option String) :
    classifyDeliveryError sc err ra = classifySpecTable sc err ra := by
  cases err with
  | none => simpa [classifyDeliveryError] using classifyByStatus_eq_specTail sc ra
  | some e =>
    have r1 : specMsgMatches (some e) ["abort", "timeout"]
        = (strIncludes e.toLower "abort" || strIncludes e.toLower "timeout") := by
      simp only [specMsgMatches, List.any_cons, List.any_nil]
      cases strIncludes e.toLower "abort" <;> cases strIncludes e.toLower "timeout" <;> rfl
    have r2 : specMsgMatches (some e) ["ssl", "tls", "certificate"]
        = (strIncludes e.toLower "ssl" || strIncludes e.toLower "tls"
            || strIncludes e.toLower "certificate") := by
      simp only [specMsgMatches, List.any_cons, List.any_nil]
      cases strIncludes e.toLower "ssl" <;> cases strIncludes e.toLower "tls" <;>
        cases strIncludes e.toLower "certificate" <;> rfl
    have r3 : specMsgMatches (some e) ["econnrefused", "enotfound", "connection refused"]
        = (strIncludes e.toLower "econnrefused" || strIncludes e.toLower "connection refused"
            || strIncludes e.toLower "enotfound") := by
      simp only [specMsgMatches, List.any_cons, List.any_nil]
      cases strIncludes e.toLower "econnrefused" <;>
        cases strIncludes e.toLower "connection refused" <;>
        cases strIncludes e.toLower "enotfound" <;> rfl
    simp only [classifyDeliveryError, classifySpecTable]
    rw [r1, r2, r3]
    by_cases h1 : (strIncludes e.toLower "abort" || strIncludes e.toLower "timeout") = true
    · rw [if_pos h1, if_pos h1]
    · rw [if_neg h1, if_neg h1]
      by_cases h2 : (strIncludes e.toLower "ssl" || strIncludes e.toLower "tls"
          || strIncludes e.toLower "certificate") = true
      · rw [if_pos h2, if_pos h2]
      · rw [if_neg h2, if_neg h2]
        by_cases h3 : (strIncludes e.toLower "econnrefused"
            || strIncludes e.toLower "connection refused"
            || strIncludes e.toLower "enotfound") = true
        · rw [if_pos h3, if_pos h3]
        · rw [if_neg h3, if_neg h3]
          exact classifyByStatus_eq_specTail sc ra

set_option maxRecDepth 8000 in
/-- Counterexample for C3: a concrete run of the replay engine in which the
first item of a correlation key fails once (HTTP 500, so it is returned to
pending) while the loop continues, the second item is delivered, and a later
batch delivers the first item.  Both items end delivered, but the item at
position 1 has `deliveredAt = some 11` and the item at position 2 has
`deliveredAt = some 7`: the lower position was delivered later, refuting the
claimed ordering across batches with failures. -/
theorem replay_position_order_counterexample :
    ∃ i j : RQItem,
      i ∈ (runEngine oracleC3 1 5 st0C3 initialCtr).1.replayQueue ∧
      j ∈ (runEngine oracleC3 1 5 st0C3 initialCtr).1.replayQueue ∧
      i.endpointId = 1 ∧ j.endpointId = 1 ∧ i.correlationKey = j.correlationKey ∧
      i.status = ReplayStatus.delivered ∧ j.status = ReplayStatus.delivered ∧
      i.position < j.position ∧
      ∀ a b : Nat, i.deliveredAt = some a → j.deliveredAt = some b → ¬ a < b := by
  refine ⟨⟨1, 1, 1, 1, some "k", ReplayStatus.delivered, 2, 0, some 11⟩,
          ⟨2, 1, 2, 2, some "k", ReplayStatus.delivered, 1, 0, some 7⟩,
          by decide, by decide, rfl, rfl, rfl, rfl, rfl, by decide, ?_⟩
  intro a b ha hb
  cases ha
  cases hb
  decide

/-- Claim C3 (amended): when every send succeeds (no item is ever returned
to pending), the replay engine delivers the items of one endpoint in strict
position order: of two delivered items with distinct positions, the lower
position has a strictly earlier `delivered_at`.  The original claim, which
also covers runs where an item fails while the loop continues with later
positions, is refuted by `replay_position_order_counterexample`. -/
theorem replay_delivers_in_position_order (oracle : Nat → DeliveryResult)
    (endpointId : Nat) (fuel : Nat) (st0 : EngineState) (c0 : LoopCtr)
    (hsucc : ∀ n, (oracle n).success = true)
    (hids : (st0.replayQueue.map (fun i => i.id)).Nodup)
    (hposinj : ∀ i ∈ st0.replayQueue, ∀ j ∈ st0.replayQueue,
      i.endpointId = endpointId → j.endpointId = endpointId → i.id ≠ j.id →
        i.position ≠ j.position)
    (hpend : ∀ i ∈ st0.replayQueue, i.endpointId = endpointId →
      i.status = ReplayStatus.pending) :
    ∀ i ∈ (runEngine oracle endpointId fuel st0 c0).1.replayQueue,
    ∀ j ∈ (runEngine oracle endpointId fuel st0 c0).1.replayQueue,
      i.endpointId = endpointId → j.endpointId = endpointId →
      i.correlationKey = j.correlationKey →
      i.status = ReplayStatus.delivered → j.status = ReplayStatus.delivered →
      i.position < j.position →
      ∃ a b, i.deliveredAt = some a ∧ j.deliveredAt = some b ∧ a < b := by
  have hinv0 : ReplayInv endpointId st0 := by
    refine ⟨hids, hposinj, ?_, ?_, ?_⟩
    · intro i hi hie hid
      rw [hpend i hi hie] at hid
      cases hid
    · intro i hi j hj hie hje hid hjd hpos
      rw [hpend i hi hie] at hid
      cases hid
    · intro i hi j hj hie hje hid hjp
      rw [hpend i hi hie] at hid
      cases hid
  have hfin := runEngine_preserves oracle endpointId hsucc fuel st0 c0 hinv0
  intro i hi j hj hie hje _ hid hjd hpos
  exact hfin.delivered_order i hi j hj hie hje hid hjd hpos

set_option maxRecDepth 8000 in
/-- Witness for C3: a failure-free run on the two-item fixture delivers
position 1 at clock 3 and position 2 at clock 7, in order. -/
theorem replay_delivers_in_position_order_witness :
    ∃ a b, ((⟨1, 1, 1, 1, some "k", ReplayStatus.delivered, 1, 0, some 3⟩ : RQItem)).deliveredAt
        = some a
      ∧ ((⟨2, 1, 2, 2, some "k", ReplayStatus.delivered, 1, 0, some 7⟩ : RQItem)).deliveredAt
        = some b
      ∧ a < b :=
  replay_delivers_in_position_order (fun _ => okResult) 1 3 st0C3 initialCtr
    (fun _ => rfl) (by decide) (by decide) (by decide)
    ⟨1, 1, 1, 1, some "k", ReplayStatus.delivered, 1, 0, some 3⟩ (by decide)
    ⟨2, 1, 2, 2, some "k", ReplayStatus.delivered, 1, 0, some 7⟩ (by decide)
    rfl rfl rfl rfl rfl (by decide)

/-- Claim C4: the §4.G step-7 fan-out does NOT hold for every 429.  A failed
delivery with status 429 and `Retry-After: 0` classifies as
`rate_limit` with `retryDelayMs = 0`, and because the source guards the
rate-limit branch with the JS-truthiness test `classification.retryDelayMs`
(for which `0` is falsy), the worker falls through and emits no
`webhook/retry` at all, instead of sleeping 0 s and emitting the attempt-2
retry.  A generic server error, for contrast, does emit the attempt-2
retry. -/
theorem retry_fanout_drops_429_zero_retry :
    classifyDeliveryError rate429Zero.statusCode rate429Zero.error rate429Zero.retryAfterHeader
      = ⟨ErrorType.rate_limit, true, some 0, false⟩
    ∧ jsTruthyInt (some 0) = false
    ∧ retryFanOut rate429Zero = RetryPlan.fallThroughNoRetry
    ∧ retryFanOut failResult = RetryPlan.retryNow 2 BASE_TIMEOUT_MS := by
  decide

/-- Claim C5: the ingestion route returns 404 and persists nothing when the
integration is unknown, 409 and persists nothing when it is not active, and
otherwise returns 200 `{"received":true}` and appends exactly one event row
whose `signature_valid` flag is false exactly when provider signature
verification fails — the request is never rejected for a bad signature. -/
theorem ingest_route_spec (pv : ProviderVerifiers) (jsonParses : String → Bool)
    (dbSt : IngestDB) (integrationId : String) (body : String)
    (requestHeaders : List (String × String)) (now : Nat) :
    (((dbSt.integrations.filter (fun i => i.id = integrationId)).head? = none →
      (ingestPOST pv jsonParses dbSt integrationId body requestHeaders now).1
          = ⟨404, IngestBody.errorNotFound⟩
      ∧ (ingestPOST pv jsonParses dbSt integrationId body requestHeaders now).2.1 = dbSt
      ∧ (ingestPOST pv jsonParses dbSt integrationId body requestHeaders now).2.2 = []))
    ∧ (∀ integ : Integration,
        (dbSt.integrations.filter (fun i => i.id = integrationId)).head? = some integ →
        integ.status ≠ IntegrationStatus.active →
        (ingestPOST pv jsonParses dbSt integrationId body requestHeaders now).1
            = ⟨409, IngestBody.errorNotActive⟩
        ∧ (ingestPOST pv jsonParses dbSt integrationId body requestHeaders now).2.1 = dbSt
        ∧ (ingestPOST pv jsonParses dbSt integrationId body requestHeaders now).2.2 = [])
    ∧ (∀ integ : Integration,
        (dbSt.integrations.filter (fun i => i.id = integrationId)).head? = some integ →
        integ.status = IntegrationStatus.active →
        (ingestPOST pv jsonParses dbSt integrationId body requestHeaders now).1
            = ⟨200, IngestBody.received⟩
        ∧ ∃ newEvent : EventRow,
            (ingestPOST pv jsonParses dbSt integrationId body requestHeaders now).2.1.events
              = dbSt.events ++ [newEvent]
            ∧ (newEvent.signatureValid = false ↔
                (verifySignature pv integ.provider body (headersToRecord requestHeaders)
                  integ.signingSecret).valid = false)
            ∧ newEvent.integrationId = integrationId) := by
  refine ⟨?_, ?_, ?_⟩
  · intro h
    unfold ingestPOST
    rw [h]
    exact ⟨rfl, rfl, rfl⟩
  · intro integ hfind hstatus
    simp only [ingestPOST, hfind]
    rw [if_pos hstatus]
    exact ⟨rfl, rfl, rfl⟩
  · intro integ hfind hstatus
    simp only [ingestPOST, hfind]
    rw [if_neg (by simp [hstatus])]
    refine ⟨rfl,
      ⟨{ id := dbSt.nextEventId
         integrationId := integrationId
         eventType := (verifySignature pv integ.provider body
           (headersToRecord requestHeaders) integ.signingSecret).eventType
         payload := if jsonParses body then Payload.parsed body else Payload.rawWrapped body
         headers := headersToRecord requestHeaders
         receivedAt := now
         signatureValid := (verifySignature pv integ.provider body
           (headersToRecord requestHeaders) integ.signingSecret).valid
         providerEventId := (verifySignature pv integ.provider body
           (headersToRecord requestHeaders) integ.signingSecret).providerEventId
         source := EventSource.webhook }, rfl, Iff.rfl, rfl⟩⟩

/-- Witness for C5: on the fixture database the route answers 404 for an
unknown id, 409 for a paused integration, and 200 for the active one. -/
theorem ingest_route_spec_witness :
    (ingestPOST pvTest (fun _ => true) ingestDb "nope" "b" [] 5).1
      = ⟨404, IngestBody.errorNotFound⟩
    ∧ (ingestPOST pvTest (fun _ => true) ingestDb "int2" "b" [] 5).1
      = ⟨409, IngestBody.errorNotActive⟩
    ∧ (ingestPOST pvTest (fun _ => true) ingestDb "int1" "b" [] 5).1
      = ⟨200, IngestBody.received⟩ :=
  ⟨((ingest_route_spec pvTest (fun _ => true) ingestDb "nope" "b" [] 5).1 rfl).1,
   ((ingest_route_spec pvTest (fun _ => true) ingestDb "int2" "b" [] 5).2.1 integPaused rfl
      (by decide)).1,
   ((ingest_route_spec pvTest (fun _ => true) ingestDb "int1" "b" [] 5).2.2 integ1 rfl rfl).1⟩

/-- Claim C6: for every item the replay engine processes (endpoint found,
breaker not open), a dedup hit — the item's event has a non-null provider
event id already covered by a delivered Delivery — marks the item delivered
with no HTTP send and no new delivery row, and the loop moves to the next
item; otherwise an exhausted skip budget (`attempts ≥ 3`) marks the item
skipped, again without sending, and the loop continues.  The dedup check is
applied before the skip budget: the skip clause carries the hypothesis that
dedup missed. -/
theorem replay_dedup_then_skip (oracle : Nat → DeliveryResult) (endpointId : Nat)
    (st : EngineState) (c : LoopCtr) (item : RQItem) (ep : Endpoint)
    (hfind : getEndpointState st endpointId = some ep)
    (hnot : ep.circuitState ≠ CircuitState.opened) :
    ((∃ pid : String,
        (findEvent st item.eventId).bind (fun e : EventRow => e.providerEventId) = some pid
        ∧ ∃ d ∈ st.deliveries, d.status = DeliveryStatus.delivered
            ∧ (findEvent st d.eventId).bind (fun e : EventRow => e.providerEventId)
                = some pid) →
      processItem oracle endpointId st c item
        = ((updItem st item.id (fun j =>
              { j with status := ReplayStatus.delivered, deliveredAt := some st.clock })).tick,
            { c with totalSkipped := c.totalSkipped + 1 }, StepSignal.nextItem)
      ∧ (processItem oracle endpointId st c item).1.deliveries = st.deliveries
      ∧ (processItem oracle endpointId st c item).2.1.sendCount = c.sendCount)
    ∧ (dedupAlreadyDelivered st item = false → item.attempts ≥ MAX_SKIP_ATTEMPTS →
      processItem oracle endpointId st c item
        = ((updItem st item.id (fun j => { j with status := ReplayStatus.skipped })).tick,
            { c with totalSkipped := c.totalSkipped + 1 }, StepSignal.nextItem)
      ∧ (processItem oracle endpointId st c item).1.deliveries = st.deliveries
      ∧ (processItem oracle endpointId st c item).2.1.sendCount = c.sendCount) := by
  constructor
  · rintro ⟨pid, hpid, d, hd, hst, hde⟩
    exact processItem_dedup_case oracle endpointId st c item ep hfind hnot
      (dedupAlreadyDelivered_true st item pid d hpid hd hst hde)
  · intro hdedup hatt
    exact processItem_skipbudget_case oracle endpointId st c item ep hfind hnot hdedup hatt

/-- Witness for C6: on the fixtures, the dedup hit and the exhausted skip
budget each finish the item without consuming a send. -/
theorem replay_dedup_then_skip_witness :
    (processItem (fun _ => okResult) 1 stDedup initialCtr itemPid).2.1.sendCount = 0
    ∧ (processItem (fun _ => okResult) 1 stSkip initialCtr itemAtt3).2.1.sendCount = 0 :=
  ⟨((replay_dedup_then_skip (fun _ => okResult) 1 stDedup initialCtr itemPid ep1 rfl
      (by decide)).1
      ⟨"p1", rfl, dOther, List.mem_singleton.mpr rfl, rfl, rfl⟩).2.2,
   ((replay_dedup_then_skip (fun _ => okResult) 1 stSkip initialCtr itemAtt3 ep1 rfl
      (by decide)).2 (by decide) (by decide)).2.2⟩

/-- Counterexample for C7: the top tier's delay is exactly 100 ms and the
sleep-step guard is `delayMs > 100`, so at tier 10 the sleep is skipped —
refuting the claim that the sleep is skipped only strictly below 100 ms and
performed at exactly 100 ms. -/
theorem replay_tier10_sleep_counterexample :
    delayMsFor 3 = 100 ∧ sleepPerformed 100 = false ∧
    (processItem (fun _ => okResult) 1 st0C3 { initialCtr with currentTierIndex := 3 }
      (mkItem 1 1)).1.sleepsMs = [] := by
  decide

/-- Claim C7 (amended): the adaptive rate starts at tier 1 ev/s, the tier
sequence is 1 → 2 → 5 → 10 with delays 1000, 500, 200, 100 ms; after 5
consecutive successes the tier advances (resetting the success counter)
unless already at the top tier; a failed send resets tier and counter to 0
(shown on the engine step); and the pre-send sleep is performed exactly when
the delay EXCEEDS 100 ms, so that the top tier's 100 ms delay is skipped —
the original claim said the sleep is performed at exactly 100 ms, refuted by
`replay_tier10_sleep_counterexample`. -/
theorem replay_rate_tiers_spec :
    RATE_TIERS = [1, 2, 5, 10]
    ∧ initialCtr.currentTierIndex = 0
    ∧ initialCtr.consecutiveSuccesses = 0
    ∧ currentRateFor 0 = 1 ∧ currentRateFor 1 = 2 ∧ currentRateFor 2 = 5
    ∧ currentRateFor 3 = 10
    ∧ delayMsFor 0 = 1000 ∧ delayMsFor 1 = 500 ∧ delayMsFor 2 = 200 ∧ delayMsFor 3 = 100
    ∧ (∀ i cs, cs + 1 ≥ SUCCESSES_PER_TIER → i < RATE_TIERS.length - 1 →
        tierAfterSuccess i cs = (i + 1, 0))
    ∧ (∀ i cs, cs + 1 < SUCCESSES_PER_TIER → tierAfterSuccess i cs = (i, cs + 1))
    ∧ (∀ i cs, ¬ i < RATE_TIERS.length - 1 → tierAfterSuccess i cs = (i, cs + 1))
    ∧ (∀ d, sleepPerformed d = false ↔ d ≤ 100)
    ∧ (∀ (oracle : Nat → DeliveryResult) (endpointId : Nat) (st : EngineState)
        (c : LoopCtr) (item : RQItem) (ep : Endpoint) (ev : EventRow),
        getEndpointState st endpointId = some ep →
        ep.circuitState ≠ CircuitState.opened →
        dedupAlreadyDelivered st item = false →
        item.attempts < MAX_SKIP_ATTEMPTS →
        findEvent st item.eventId = some ev →
        (((oracle c.sendCount).success = true →
          (processItem oracle endpointId st c item).2.1.currentTierIndex
              = (tierAfterSuccess c.currentTierIndex c.consecutiveSuccesses).1
          ∧ (processItem oracle endpointId st c item).2.1.consecutiveSuccesses
              = (tierAfterSuccess c.currentTierIndex c.consecutiveSuccesses).2)
        ∧ ((oracle c.sendCount).success = false →
          (processItem oracle endpointId st c item).2.1.currentTierIndex = 0
          ∧ (processItem oracle endpointId st c item).2.1.consecutiveSuccesses = 0)
        ∧ (processItem oracle endpointId st c item).2.1.sendCount = c.sendCount + 1
        ∧ (processItem oracle endpointId st c item).1.sleepsMs
            = (if sleepPerformed (delayMsFor c.currentTierIndex)
               then st.sleepsMs ++ [delayMsFor c.currentTierIndex] else st.sleepsMs))) := by
  refine ⟨rfl, rfl, rfl, rfl, rfl, rfl, rfl, rfl, rfl, rfl, rfl, ?_, ?_, ?_, ?_, ?_⟩
  · intro i cs h1 h2
    simp only [tierAfterSuccess]
    rw [if_pos ⟨h1, h2⟩]
  · intro i cs h1
    simp only [tierAfterSuccess]
    rw [if_neg (fun hc => absurd hc.1 (Nat.not_le.mpr h1))]
  · intro i cs h2
    simp only [tierAfterSuccess]
    rw [if_neg (fun hc => h2 hc.2)]
  · intro d
    simp [sleepPerformed, Nat.not_lt]
  · intro oracle endpointId st c item ep ev hfind hnot hdedup hatt hev
    exact processItem_send_counters oracle endpointId st c item ep ev hfind hnot hdedup hatt hev

/-- Witness for C7: the tier bookkeeping on concrete counters, and one
successful engine step keeping the counters at tier 0. -/
theorem replay_rate_tiers_spec_witness :
    tierAfterSuccess 0 4 = (1, 0)
    ∧ tierAfterSuccess 0 0 = (0, 1)
    ∧ tierAfterSuccess 3 9 = (3, 10)
    ∧ (processItem (fun _ => okResult) 1 st0C3 initialCtr (mkItem 1 1)).2.1.currentTierIndex
        = 0 := by
  obtain ⟨-, -, -, -, -, -, -, -, -, -, -, hadv, hlow, htop, -, heng⟩ := replay_rate_tiers_spec
  refine ⟨hadv 0 4 (by decide) (by decide), hlow 0 0 (by decide), htop 3 9 (by decide), ?_⟩
  have h := heng (fun _ => okResult) 1 st0C3 initialCtr (mkItem 1 1) ep1 (mkEv 1)
    rfl (by decide) rfl (by decide) rfl
  exact (h.1 rfl).1

/-- Claim C8: `recordHealthCheckResult` mutates the endpoint only when the
breaker is OPEN.  In CLOSED or HALF_OPEN it returns the endpoint unchanged
with a trivial transition; when OPEN it updates the consecutive-health-check
counter (increment on success, reset on failure) and the last-check
timestamp, transitions to HALF_OPEN exactly on reaching 3 consecutive
successes (resetting both delivery counters and stamping
`state_changed_at`), and otherwise stays OPEN with the delivery counters and
`state_changed_at` untouched. -/
theorem healthCheck_only_mutates_open (endpoint : Endpoint) (success : Bool) (now : Nat) :
    (endpoint.circuitState ≠ CircuitState.opened →
      recordHealthCheckResult endpoint success now
        = (endpoint, ⟨endpoint.circuitState, endpoint.circuitState⟩))
    ∧ (endpoint.circuitState = CircuitState.opened →
        (recordHealthCheckResult endpoint success now).1.consecutiveHealthChecks
            = (if success then endpoint.consecutiveHealthChecks + 1 else 0)
        ∧ (recordHealthCheckResult endpoint success now).1.lastHealthCheck = some now
        ∧ ((recordHealthCheckResult endpoint success now).2.newState = CircuitState.half_open
            ↔ (if success then endpoint.consecutiveHealthChecks + 1 else 0)
                ≥ HEALTH_CHECKS_FOR_HALF_OPEN)
        ∧ ((if success then endpoint.consecutiveHealthChecks + 1 else 0)
              ≥ HEALTH_CHECKS_FOR_HALF_OPEN →
            (recordHealthCheckResult endpoint success now).1.circuitState
                = CircuitState.half_open
            ∧ (recordHealthCheckResult endpoint success now).1.stateChangedAt = now
            ∧ (recordHealthCheckResult endpoint success now).1.consecutiveFailures = 0
            ∧ (recordHealthCheckResult endpoint success now).1.consecutiveSuccesses = 0)
        ∧ ((if success then endpoint.consecutiveHealthChecks + 1 else 0)
              < HEALTH_CHECKS_FOR_HALF_OPEN →
            (recordHealthCheckResult endpoint success now).2.newState = CircuitState.opened
            ∧ (recordHealthCheckResult endpoint success now).1.circuitState
                = CircuitState.opened
            ∧ (recordHealthCheckResult endpoint success now).1.consecutiveFailures
                = endpoint.consecutiveFailures
            ∧ (recordHealthCheckResult endpoint success now).1.consecutiveSuccesses
                = endpoint.consecutiveSuccesses
            ∧ (recordHealthCheckResult endpoint success now).1.stateChangedAt
                = endpoint.stateChangedAt)) := by
  constructor
  · intro h
    unfold recordHealthCheckResult
    rw [if_pos h]
  · intro h
    unfold recordHealthCheckResult
    rw [if_neg (by simp [h])]
    simp only [h]
    split_ifs with hreach <;> simp_all <;> omega

/-- Witness for C8: a CLOSED endpoint is untouched by a health check; an
OPEN endpoint reaches HALF_OPEN on its third consecutive success and stays
OPEN on its first. -/
theorem healthCheck_only_mutates_open_witness :
    recordHealthCheckResult ep1 true 0 = (ep1, ⟨CircuitState.closed, CircuitState.closed⟩)
    ∧ (recordHealthCheckResult epChk2 true 7).2.newState = CircuitState.half_open
    ∧ (recordHealthCheckResult epChk0 true 7).2.newState = CircuitState.opened :=
  ⟨(healthCheck_only_mutates_open ep1 true 0).1 (by decide),
   ((healthCheck_only_mutates_open epChk2 true 7).2 rfl).2.2.1.mpr (by decide),
   (((healthCheck_only_mutates_open epChk0 true 7).2 rfl).2.2.2.2 (by decide)).1⟩

/-- Counterexample for C9: on the fixture database, the integration is
active and carries a reconciliation credential, yet a failed provider fetch
returns the zero result and persists NO ReconciliationRun row — refuting
"persists exactly one ReconciliationRun row ... including when the provider
API fetch fails". -/
theorem reconcile_fetchfail_no_run :
    integ1.status = IntegrationStatus.active ∧ integ1.apiKeyEncrypted = some "sk_test" ∧
    reconcileIntegration reconDb0 "int1" (Except.error ()) 0 600
      = (⟨0, 0, 0, 0⟩, reconDb0, []) ∧
    (reconcileIntegration reconDb0 "int1" (Except.error ()) 0 600).2.1.reconciliationRuns
      = [] := by
  refine ⟨rfl, rfl, rfl, rfl⟩

/-- Claim C9 (amended): for an eligible integration whose provider fetch
SUCCEEDS, the cycle appends exactly one ReconciliationRun row with the
counts of the run; every gap-filling event it inserts has
source = reconciliation, `signature_valid = true` and empty headers; the
inserted events carry exactly the missing provider event ids; and one
`webhook/received` task is emitted per inserted event.  When the fetch
fails, the run exits early with the zero result and no run row — the
original "including when the provider API fetch fails" is refuted by
`reconcile_fetchfail_no_run`. -/
theorem reconcile_run_row_spec (dbSt : ReconDB) (iid : String) (integ : Integration)
    (pes : List ProviderEvent) (since now : Nat)
    (hfind : (dbSt.integrations.filter (fun i => i.id = iid)).head? = some integ)
    (hkey : (match integ.apiKeyEncrypted with
             | none => true
             | some k => k.isEmpty) = false) :
    (reconcileIntegration dbSt iid (Except.ok pes) since now).2.1.reconciliationRuns
      = dbSt.reconciliationRuns ++
        [⟨iid, pes.length,
          (dbSt.events.filter (fun e => e.integrationId = iid ∧ e.receivedAt ≥ since)).length,
          (pes.filter (fun pe => ¬ ((dbSt.events.filter
            (fun e => e.integrationId = iid ∧ e.receivedAt ≥ since)).filterMap
              (fun e => e.providerEventId)).contains pe.id)).length,
          (pes.filter (fun pe => ¬ ((dbSt.events.filter
            (fun e => e.integrationId = iid ∧ e.receivedAt ≥ since)).filterMap
              (fun e => e.providerEventId)).contains pe.id)).length,
          now⟩]
    ∧ (reconcileIntegration dbSt iid (Except.ok pes) since now).2.1.events
      = dbSt.events ++ gapEvents iid now
          (pes.filter (fun pe => ¬ ((dbSt.events.filter
            (fun e => e.integrationId = iid ∧ e.receivedAt ≥ since)).filterMap
              (fun e => e.providerEventId)).contains pe.id)) dbSt.nextEventId
    ∧ (∀ e ∈ gapEvents iid now
          (pes.filter (fun pe => ¬ ((dbSt.events.filter
            (fun e => e.integrationId = iid ∧ e.receivedAt ≥ since)).filterMap
              (fun e => e.providerEventId)).contains pe.id)) dbSt.nextEventId,
        e.source = EventSource.reconciliation ∧ e.signatureValid = true ∧ e.headers = [])
    ∧ (gapEvents iid now
          (pes.filter (fun pe => ¬ ((dbSt.events.filter
            (fun e => e.integrationId = iid ∧ e.receivedAt ≥ since)).filterMap
              (fun e => e.providerEventId)).contains pe.id)) dbSt.nextEventId).map
        (fun e => e.providerEventId)
      = (pes.filter (fun pe => ¬ ((dbSt.events.filter
            (fun e => e.integrationId = iid ∧ e.receivedAt ≥ since)).filterMap
              (fun e => e.providerEventId)).contains pe.id)).map (fun g => some g.id)
    ∧ (reconcileIntegration dbSt iid (Except.ok pes) since now).2.2
      = (gapEvents iid now
          (pes.filter (fun pe => ¬ ((dbSt.events.filter
            (fun e => e.integrationId = iid ∧ e.receivedAt ≥ since)).filterMap
              (fun e => e.providerEventId)).contains pe.id)) dbSt.nextEventId).map
        (fun e => ⟨"webhook/received", e.id, iid, integ.destinationUrl⟩)
    ∧ reconcileIntegration dbSt iid (Except.error ()) since now = (⟨0, 0, 0, 0⟩, dbSt, []) := by
  rw [reconcile_eq_fetched dbSt iid integ (Except.ok pes) since now hfind hkey,
      reconcile_eq_fetched dbSt iid integ (Except.error ()) since now hfind hkey]
  refine ⟨?_, ?_, ?_, ?_, ?_, rfl⟩
  · show ((reconcileFetched dbSt iid integ (Except.ok pes) since now).2.1).reconciliationRuns = _
    unfold reconcileFetched
    simp only [insertGaps_eq]
    simp
  · unfold reconcileFetched
    simp only [insertGaps_eq]
  · intro e he
    have := gapEvents_fields iid now _ dbSt.nextEventId e he
    exact ⟨this.1, this.2.1, this.2.2.1⟩
  · exact gapEvents_pids iid now _ dbSt.nextEventId
  · unfold reconcileFetched
    simp only [insertGaps_eq]
    simp

/-- Witness for C9: one successful cycle with one missing provider event on
the fixture database appends exactly one run row with counts (1, 0, 1, 1). -/
theorem reconcile_run_row_spec_witness :
    (reconcileIntegration reconDb0 "int1" (Except.ok [⟨"pe1", "t1"⟩]) 0 600).2.1.reconciliationRuns
      = [⟨"int1", 1, 0, 1, 1, 600⟩] :=
  ((reconcile_run_row_spec reconDb0 "int1" integ1 [⟨"pe1", "t1"⟩] 0 600 rfl
      (by decide)).1).trans (by decide)

/-- Claim C10: the dedup lookup is global.  The delivered Delivery that
triggers the dedup may belong to ANY event carrying the provider event id —
here the hypotheses place no constraint tying the delivery's event or
endpoint to the item's — and the item is marked delivered without consuming
a send. -/
theorem replay_dedup_global (oracle : Nat → DeliveryResult) (endpointId : Nat)
    (st : EngineState) (c : LoopCtr) (item : RQItem) (ep : Endpoint) (pid : String)
    (d : DeliveryRow)
    (hfind : getEndpointState st endpointId = some ep)
    (hnot : ep.circuitState ≠ CircuitState.opened)
    (hpid : (findEvent st item.eventId).bind (fun e : EventRow => e.providerEventId)
      = some pid)
    (hd : d ∈ st.deliveries) (hst : d.status = DeliveryStatus.delivered)
    (hde : (findEvent st d.eventId).bind (fun e : EventRow => e.providerEventId)
      = some pid) :
    processItem oracle endpointId st c item
      = ((updItem st item.id (fun j =>
            { j with status := ReplayStatus.delivered, deliveredAt := some st.clock })).tick,
          { c with totalSkipped := c.totalSkipped + 1 }, StepSignal.nextItem)
    ∧ (processItem oracle endpointId st c item).2.1.sendCount = c.sendCount := by
  have h := processItem_dedup_case oracle endpointId st c item ep hfind hnot
    (dedupAlreadyDelivered_true st item pid d hpid hd hst hde)
  exact ⟨h.1, h.2.2⟩

/-- Witness for C10: the fixture delivery `dOther` sits on endpoint 99 and
belongs to an event of a different integration, yet it dedups the item on
endpoint 1: the item is marked delivered at the current clock with no
send. -/
theorem replay_dedup_global_witness :
    dOther.endpointId = some 99
    ∧ (processItem (fun _ => okResult) 1 stDedup initialCtr itemPid
        = ((updItem stDedup itemPid.id (fun j =>
              { j with status := ReplayStatus.delivered, deliveredAt := some stDedup.clock })).tick,
            { initialCtr with totalSkipped := initialCtr.totalSkipped + 1 },
            StepSignal.nextItem)) :=
  ⟨rfl,
   (replay_dedup_global (fun _ => okResult) 1 stDedup initialCtr itemPid ep1 "p1" dOther
      rfl (by decide) rfl (List.mem_singleton.mpr rfl) rfl rfl).1⟩

end Hookwise
